import Mathlib

/-!
# Verification of the cloud-lightning weather backend

A shallow embedding, in Lean 4, of the Python backend of the
cloud-lightning application (files `stations.py`, `smhi_client.py`,
`weather.py`, `quality.py`), together with theorems settling the frozen
claims C1..C10 about it.

Modelling conventions, used throughout and noted again at each definition:

* Python floats are modelled as exact rationals (`ℚ`) where the source only
  performs field arithmetic and comparisons, and as real numbers (`ℝ`) where
  the source calls `math.sqrt` (the Wilson interval and everything that
  contains its results).  Numeric literals such as `0.02`, `0.85`, `1.96`
  are read as the exact rationals they denote.
* Python `round(x, n)` rounds half to even; `rhe` below is that rounding to
  an integer, and `round1`/`round2` divide back by the power of ten.
* Network and file-system effects (`requests`, the CSV/result caches) are
  modelled by passing the fetched data in as explicit arguments; trigonometric
  helpers (`_bearing`, `_weighted_mean_bearing`) are passed in as abstract
  function parameters, since everything downstream of them is exact.
-/

namespace CloudLightning

/-! ## Rounding: Python `round(x, ndigits)` (banker's rounding, half to even)

`rhe x` is the integer nearest to `x`, ties going to the even integer; the
test `⌊x⌋ % 2 = 0` spells out the evenness check.  Generic over any ordered
field with a floor so that it is computable on `ℚ` and usable on `ℝ`. -/

def rhe {α : Type} [LinearOrderedField α] [FloorRing α] (x : α) : ℤ :=
  if Int.fract x < 1 / 2 then ⌊x⌋
  else if 1 / 2 < Int.fract x then ⌊x⌋ + 1
  else if ⌊x⌋ % 2 = 0 then ⌊x⌋ else ⌊x⌋ + 1

variable {α : Type} [LinearOrderedField α] [FloorRing α]

theorem floor_le_rhe (x : α) : ⌊x⌋ ≤ rhe x := by
  unfold rhe
  split_ifs <;> omega

theorem rhe_le_floor_add_one (x : α) : rhe x ≤ ⌊x⌋ + 1 := by
  unfold rhe
  split_ifs <;> omega

theorem rhe_mono {x y : α} (h : x ≤ y) : rhe x ≤ rhe y := by
  rcases lt_or_eq_of_le (Int.floor_le_floor h) with hf | hf
  · calc rhe x ≤ ⌊x⌋ + 1 := rhe_le_floor_add_one x
    _ ≤ ⌊y⌋ := by omega
    _ ≤ rhe y := floor_le_rhe y
  · have hfr : Int.fract x ≤ Int.fract y := by
      simp only [Int.fract]
      rw [hf]
      linarith
    unfold rhe
    rw [← hf]
    split_ifs <;> first | omega | linarith

theorem rhe_intCast (n : ℤ) : rhe (n : α) = n := by
  unfold rhe
  have h0 : Int.fract (n : α) = 0 := Int.fract_intCast n
  rw [h0]
  have : (0 : α) < 1 / 2 := by norm_num
  rw [if_pos this, Int.floor_intCast]

theorem rhe_nonneg {x : α} (h : 0 ≤ x) : 0 ≤ rhe x := by
  have := floor_le_rhe x
  have : (0 : ℤ) ≤ ⌊x⌋ := by
    rw [Int.le_floor]
    exact_mod_cast h
  omega

theorem rhe_le_of_le_intCast {x : α} {n : ℤ} (h : x ≤ (n : α)) : rhe x ≤ n := by
  calc rhe x ≤ rhe ((n : α)) := rhe_mono h
  _ = n := rhe_intCast n

theorem intCast_le_rhe {x : α} {n : ℤ} (h : (n : α) ≤ x) : n ≤ rhe x := by
  calc n = rhe ((n : α)) := (rhe_intCast n).symm
  _ ≤ rhe x := rhe_mono h

/-- Python `round(x, 1)` as a value (one decimal place). -/
def round1 (x : α) : α := (rhe (x * 10) : α) / 10

/-- Python `round(x, 2)` as a value (two decimal places). -/
def round2 (x : α) : α := (rhe (x * 100) : α) / 100

theorem round2_mono {x y : α} (h : x ≤ y) : round2 x ≤ round2 y := by
  unfold round2
  have : rhe (x * 100) ≤ rhe (y * 100) := rhe_mono (by linarith)
  have hc : ((rhe (x * 100) : ℤ) : α) ≤ ((rhe (y * 100) : ℤ) : α) := by exact_mod_cast this
  linarith

theorem round2_nonneg {x : α} (h : 0 ≤ x) : 0 ≤ round2 x := by
  unfold round2
  have : (0 : ℤ) ≤ rhe (x * 100) := rhe_nonneg (by linarith)
  have hc : (0 : α) ≤ ((rhe (x * 100) : ℤ) : α) := by exact_mod_cast this
  exact div_nonneg hc (by norm_num)

theorem round2_le_of_le {x : α} {n : ℤ} (h : x ≤ (n : α)) : round2 x ≤ (n : α) := by
  unfold round2
  have : rhe (x * 100) ≤ n * 100 := by
    apply rhe_le_of_le_intCast
    push_cast
    linarith
  have hc : ((rhe (x * 100) : ℤ) : α) ≤ ((n * 100 : ℤ) : α) := by exact_mod_cast this
  push_cast at hc
  linarith

theorem round1_intCast (n : ℤ) : round1 ((n : α)) = (n : α) := by
  unfold round1
  have h : ((n : α)) * 10 = ((n * 10 : ℤ) : α) := by push_cast; ring
  rw [h, rhe_intCast]
  push_cast
  field_simp

theorem round2_intCast (n : ℤ) : round2 ((n : α)) = (n : α) := by
  unfold round2
  have h : ((n : α)) * 100 = ((n * 100 : ℤ) : α) := by push_cast; ring
  rw [h, rhe_intCast]
  push_cast
  field_simp

/-! ## `stations.py` — adaptive station selection (`select_stations`)

A station as ranked by `get_nearby_stations`: id, name, coordinates and the
distance (km) to the query point.  Coordinates and distances are rationals
(exact models of the floats). -/

structure Station where
  id : String
  name : String
  latitude : ℚ
  longitude : ℚ
  distance_km : ℚ
deriving DecidableEq, Inhabited

/-- Minimum number of stations always included (source: `MIN_STATIONS = 2`). -/
def MIN_STATIONS : ℕ := 2

/-- Marginal-weight cutoff (source: `WEIGHT_THRESHOLD = 0.02`). -/
def WEIGHT_THRESHOLD : ℚ := 2 / 100

/-- Distance clamp (source: `MIN_DIST_KM = 0.1`). -/
def MIN_DIST_KM : ℚ := 1 / 10

/-- An entry of the selection result: the station plus its raw IDW weight
(source: the dict `{"station": s, "raw_weight": raw_weight}`). -/
structure Selected where
  station : Station
  raw_weight : ℚ
deriving DecidableEq, Inhabited

/-- `dist = max(s["distance_km"], MIN_DIST_KM); raw_weight = 1.0 / dist ** 2`. -/
def rawWeightOf (s : Station) : ℚ := 1 / (max s.distance_km MIN_DIST_KM) ^ 2

/-- `sum(sd["raw_weight"] for sd in selected)`. -/
def sumRaw (sel : List Selected) : ℚ := (sel.map (·.raw_weight)).sum

/-- The loop of `select_stations`: `i` is the loop index, `sel` the
accumulated `selected` list.  The `break` is modelled by returning `sel`. -/
def select_go : List Station → ℕ → List Selected → List Selected
  | [], _, sel => sel
  | s :: rest, i, sel =>
    if MIN_STATIONS ≤ i ∧ rawWeightOf s / (sumRaw sel + rawWeightOf s) < WEIGHT_THRESHOLD
    then sel
    else select_go rest (i + 1) (sel ++ [⟨s, rawWeightOf s⟩])

/-- `select_stations(candidates)` from `stations.py`. -/
def select_stations (candidates : List Station) : List Selected :=
  select_go candidates 0 []

theorem select_go_eq_append (cs : List Station) :
    ∀ (i : ℕ) (sel : List Selected), ∃ k,
      select_go cs i sel = sel ++ (cs.take k).map (fun s => ⟨s, rawWeightOf s⟩) := by
  induction cs with
  | nil =>
      intro i sel
      exact ⟨0, by simp [select_go]⟩
  | cons s rest ih =>
      intro i sel
      by_cases hc : MIN_STATIONS ≤ i ∧
          rawWeightOf s / (sumRaw sel + rawWeightOf s) < WEIGHT_THRESHOLD
      · exact ⟨0, by simp [select_go, hc]⟩
      · obtain ⟨k, hk⟩ := ih (i + 1) (sel ++ [⟨s, rawWeightOf s⟩])
        refine ⟨k + 1, ?_⟩
        simp only [select_go]
        rw [if_neg hc, hk]
        simp

theorem select_go_length_lower (cs : List Station) :
    ∀ (i : ℕ) (sel : List Selected),
      sel.length + min (MIN_STATIONS - i) cs.length ≤ (select_go cs i sel).length := by
  induction cs with
  | nil =>
      intro i sel
      simp [select_go]
  | cons s rest ih =>
      intro i sel
      by_cases hc : MIN_STATIONS ≤ i ∧
          rawWeightOf s / (sumRaw sel + rawWeightOf s) < WEIGHT_THRESHOLD
      · simp only [select_go]
        rw [if_pos hc]
        have : MIN_STATIONS - i = 0 := by omega
        simp [this]
      · simp only [select_go]
        rw [if_neg hc]
        have h2 := ih (i + 1) (sel ++ [⟨s, rawWeightOf s⟩])
        simp only [List.length_append, List.length_cons, List.length_singleton] at *
        have hm : MIN_STATIONS = 2 := rfl
        omega

theorem select_go_threshold (cs : List Station) :
    ∀ (i : ℕ) (sel : List Selected), i = sel.length →
      ∀ (j : ℕ), j < (select_go cs i sel).length → MIN_STATIONS ≤ j → sel.length ≤ j →
        ¬ (((select_go cs i sel).getD j default).raw_weight /
             (sumRaw ((select_go cs i sel).take j) +
               ((select_go cs i sel).getD j default).raw_weight)
           < WEIGHT_THRESHOLD) := by
  induction cs with
  | nil =>
      intro i sel hi j hj h2 hsel
      simp [select_go] at hj
      omega
  | cons s rest ih =>
      intro i sel hi j hj h2 hsel
      by_cases hc : MIN_STATIONS ≤ i ∧
          rawWeightOf s / (sumRaw sel + rawWeightOf s) < WEIGHT_THRESHOLD
      · exfalso
        simp only [select_go] at hj
        rw [if_pos hc] at hj
        omega
      · simp only [select_go] at hj ⊢
        rw [if_neg hc] at hj ⊢
        rcases Nat.lt_or_ge j (sel.length + 1) with hlt | hge
        · -- j = sel.length: the freshly appended entry; the loop guard failed.
          have hja : j = sel.length := by omega
          have hcond : ¬ (rawWeightOf s / (sumRaw sel + rawWeightOf s) < WEIGHT_THRESHOLD) := by
            intro hx
            exact hc ⟨by omega, hx⟩
          obtain ⟨k, hk⟩ := select_go_eq_append rest (i + 1) (sel ++ [⟨s, rawWeightOf s⟩])
          have hget : (select_go rest (i + 1) (sel ++ [⟨s, rawWeightOf s⟩])).getD j default
              = ⟨s, rawWeightOf s⟩ := by
            rw [hk, List.append_assoc]
            rw [List.getD_append_right _ _ _ _ (by omega)]
            simp [hja]
          have htake : (select_go rest (i + 1) (sel ++ [⟨s, rawWeightOf s⟩])).take j = sel := by
            rw [hk, List.append_assoc, List.take_append_of_le_length (by omega), hja,
              List.take_length]
          rw [hget, htake]
          exact hcond
        · -- j ≥ sel.length + 1: covered by the induction hypothesis.
          have := ih (i + 1) (sel ++ [⟨s, rawWeightOf s⟩])
            (by simp [List.length_append]; omega) j hj h2
            (by simp only [List.length_append, List.length_singleton]; omega)
          exact this

/-- C2. `select_stations` returns a prefix of its distance-sorted candidate
list; it returns at least `MIN_STATIONS = 2` entries whenever at least two
candidates exist; after the minimum, every included candidate has marginal
normalized weight `raw / (cumulative + raw)` at least `WEIGHT_THRESHOLD = 0.02`;
and for candidates at distances 1, 10, 1000 km it returns exactly the first
two. -/
theorem C2_select_stations_adaptive_cutoff
    (candidates : List Station)
    (hsorted : List.Sorted (fun a b => a.distance_km ≤ b.distance_km) candidates) :
    (∃ k, select_stations candidates
        = (candidates.take k).map (fun s => ⟨s, rawWeightOf s⟩))
    ∧ (2 ≤ candidates.length → 2 ≤ (select_stations candidates).length)
    ∧ (∀ (j : ℕ), j < (select_stations candidates).length → MIN_STATIONS ≤ j →
        ¬ (((select_stations candidates).getD j default).raw_weight /
             (sumRaw ((select_stations candidates).take j) +
               ((select_stations candidates).getD j default).raw_weight)
           < WEIGHT_THRESHOLD))
    ∧ (select_stations
          [⟨"A", "A", 0, 0, 1⟩, ⟨"B", "B", 0, 0, 10⟩, ⟨"C", "C", 0, 0, 1000⟩]).map (·.station)
        = [⟨"A", "A", 0, 0, 1⟩, ⟨"B", "B", 0, 0, 10⟩] := by
  refine ⟨?_, ?_, ?_, ?_⟩
  · obtain ⟨k, hk⟩ := select_go_eq_append candidates 0 []
    exact ⟨k, by simpa [select_stations] using hk⟩
  · intro hlen
    have := select_go_length_lower candidates 0 []
    simp only [List.length_nil, Nat.zero_add] at this
    unfold select_stations
    have hm : MIN_STATIONS = 2 := rfl
    omega
  · intro j hj h2
    exact select_go_threshold candidates 0 [] (by simp) j hj h2 (by simp)
  · norm_num [select_stations, select_go, rawWeightOf, sumRaw, MIN_STATIONS, MIN_DIST_KM,
      WEIGHT_THRESHOLD, max_def]

/-- Witness for C2 at the concrete three-candidate list of the claim. -/
theorem C2_select_stations_adaptive_cutoff_witness :
    2 ≤ (select_stations
          [⟨"A", "A", 0, 0, 1⟩, ⟨"B", "B", 0, 0, 10⟩, ⟨"C", "C", 0, 0, 1000⟩]).length
    ∧ (select_stations
          [⟨"A", "A", 0, 0, 1⟩, ⟨"B", "B", 0, 0, 10⟩, ⟨"C", "C", 0, 0, 1000⟩]).map (·.station)
        = [⟨"A", "A", 0, 0, 1⟩, ⟨"B", "B", 0, 0, 10⟩] := by
  have h := C2_select_stations_adaptive_cutoff
    [⟨"A", "A", 0, 0, 1⟩, ⟨"B", "B", 0, 0, 10⟩, ⟨"C", "C", 0, 0, 1000⟩]
    (by norm_num [List.sorted_cons])
  exact ⟨h.2.1 (by norm_num), h.2.2.2⟩

/-! ## `smhi_client.py` — CSV parsing (`parse_smhi_csv`)

An observation row as produced by the parser.  The numeric value is an exact
rational (every Python float is one); the float parser itself (`float(...)`)
is a Python builtin and is passed in as an abstract partial function
`pf : String → Option ℚ` (`none` models `ValueError`). -/

structure Row where
  date : String
  time : String
  value : ℚ
  quality : String
deriving DecidableEq, Inhabited

/-- The body of the row loop of `parse_smhi_csv`: one semicolon-delimited
line becomes a row, or `none` for every `continue` branch (< 4 columns,
empty date, empty value, unparsable value).  Columns are split on `;`
(the upstream data is unquoted, so `csv.reader` with `delimiter=";"`
coincides with a plain split) and stripped like `str.strip()`. -/
def parse_row (pf : String → Option ℚ) (line : String) : Option Row :=
  let row := line.splitOn ";"
  if row.length < 4 then none
  else
    let date_str := (row.getD 0 "").trim
    let time_str := (row.getD 1 "").trim
    let value_str := (row.getD 2 "").trim
    let quality := (row.getD 3 "").trim
    if date_str = "" ∨ value_str = "" then none
    else
      match pf value_str with
      | none => none
      | some v => some ⟨date_str, time_str, v, quality⟩

/-- `parse_smhi_csv` from `smhi_client.py`, over the line list produced by
`str.splitlines()`: find the first line starting with `Datum;Tid`, skip it
(`next(reader)`), and keep the rows the loop accepts. -/
def parse_smhi_csv (pf : String → Option ℚ) (lines : List String) : List Row :=
  match lines.findIdx? (fun l => l.startsWith "Datum;Tid") with
  | none => []
  | some i => ((lines.drop i).drop 1).filterMap (parse_row pf)

theorem parse_row_none_iff (pf : String → Option ℚ) (l : String) :
    parse_row pf l = none ↔
      ((l.splitOn ";").length < 4
       ∨ ((l.splitOn ";").getD 0 "").trim = ""
       ∨ ((l.splitOn ";").getD 2 "").trim = ""
       ∨ pf (((l.splitOn ";").getD 2 "").trim) = none) := by
  simp only [parse_row]
  by_cases h4 : (l.splitOn ";").length < 4
  · rw [if_pos h4]
    exact ⟨fun _ => Or.inl h4, fun _ => rfl⟩
  · rw [if_neg h4]
    by_cases hde : ((l.splitOn ";").getD 0 "").trim = "" ∨ ((l.splitOn ";").getD 2 "").trim = ""
    · rw [if_pos hde]
      refine ⟨fun _ => ?_, fun _ => rfl⟩
      rcases hde with h | h
      · exact Or.inr (Or.inl h)
      · exact Or.inr (Or.inr (Or.inl h))
    · rw [if_neg hde]
      push_neg at hde
      cases hpf : pf (((l.splitOn ";").getD 2 "").trim) with
      | none =>
          exact ⟨fun _ => Or.inr (Or.inr (Or.inr rfl)), fun _ => rfl⟩
      | some v =>
          constructor
          · intro hcontra
            exact absurd hcontra (by simp)
          · rintro (h | h | h | h)
            · exact absurd h h4
            · exact absurd h hde.1
            · exact absurd h hde.2
            · exact absurd h (by simp)

theorem parse_row_some (pf : String → Option ℚ) (l : String) (r : Row)
    (h : parse_row pf l = some r) :
    4 ≤ (l.splitOn ";").length
    ∧ r.date = ((l.splitOn ";").getD 0 "").trim ∧ r.date ≠ ""
    ∧ r.time = ((l.splitOn ";").getD 1 "").trim
    ∧ r.quality = ((l.splitOn ";").getD 3 "").trim
    ∧ ((l.splitOn ";").getD 2 "").trim ≠ ""
    ∧ pf (((l.splitOn ";").getD 2 "").trim) = some r.value := by
  simp only [parse_row] at h
  by_cases h4 : (l.splitOn ";").length < 4
  · rw [if_pos h4] at h
    exact absurd h (by simp)
  · rw [if_neg h4] at h
    by_cases hde : ((l.splitOn ";").getD 0 "").trim = "" ∨ ((l.splitOn ";").getD 2 "").trim = ""
    · rw [if_pos hde] at h
      exact absurd h (by simp)
    · rw [if_neg hde] at h
      push_neg at hde
      cases hpf : pf (((l.splitOn ";").getD 2 "").trim) with
      | none =>
          rw [hpf] at h
          exact absurd h (by simp)
      | some v =>
          rw [hpf] at h
          injection h with h2
          subst h2
          exact ⟨by omega, rfl, hde.1, rfl, rfl, hde.2, rfl⟩

/-- C8.  CSV parsing: with no `Datum;Tid` line the result is empty; with a
first header line at index `i` the rows come from the lines after `i`,
each keeping the first four `;`-columns and dropped exactly when it has
fewer than four columns, an empty date, an empty value, or an unparsable
value. -/
theorem C8_parse_smhi_csv_header_and_row_rules
    (pf : String → Option ℚ) (lines : List String) :
    ((∀ l ∈ lines, l.startsWith "Datum;Tid" = false) → parse_smhi_csv pf lines = [])
    ∧ (∀ i, lines.findIdx? (fun l => l.startsWith "Datum;Tid") = some i →
        (∀ j, j < i → (lines.getD j "").startsWith "Datum;Tid" = false)
        ∧ (lines.getD i "").startsWith "Datum;Tid" = true
        ∧ parse_smhi_csv pf lines = (lines.drop (i + 1)).filterMap (parse_row pf))
    ∧ (∀ l r, parse_row pf l = some r →
        4 ≤ (l.splitOn ";").length
        ∧ r.date = ((l.splitOn ";").getD 0 "").trim ∧ r.date ≠ ""
        ∧ r.time = ((l.splitOn ";").getD 1 "").trim
        ∧ r.quality = ((l.splitOn ";").getD 3 "").trim
        ∧ ((l.splitOn ";").getD 2 "").trim ≠ ""
        ∧ pf (((l.splitOn ";").getD 2 "").trim) = some r.value)
    ∧ (∀ l, parse_row pf l = none ↔
        ((l.splitOn ";").length < 4
         ∨ ((l.splitOn ";").getD 0 "").trim = ""
         ∨ ((l.splitOn ";").getD 2 "").trim = ""
         ∨ pf (((l.splitOn ";").getD 2 "").trim) = none)) := by
  refine ⟨?_, ?_, parse_row_some pf, parse_row_none_iff pf⟩
  · intro h
    have hn : lines.findIdx? (fun l => l.startsWith "Datum;Tid") = none :=
      List.findIdx?_eq_none_iff.mpr h
    unfold parse_smhi_csv
    rw [hn]
  · intro i hi
    obtain ⟨hlt, hp, hprev⟩ := List.findIdx?_eq_some_iff_getElem.mp hi
    refine ⟨?_, ?_, ?_⟩
    · intro j hj
      have hjl : j < lines.length := Nat.lt_trans hj hlt
      rw [List.getD_eq_getElem lines "" hjl]
      simpa using hprev j hj
    · rw [List.getD_eq_getElem lines "" hlt]
      exact hp
    · unfold parse_smhi_csv
      rw [hi]
      show ((lines.drop i).drop 1).filterMap (parse_row pf)
        = (lines.drop (i + 1)).filterMap (parse_row pf)
      rw [List.drop_drop, Nat.add_comm]

/-- Witness for C8 at a concrete headerless input: no line begins with the
`Datum;Tid` prefix, so parsing returns the empty row list. -/
theorem C8_parse_smhi_csv_header_and_row_rules_witness :
    parse_smhi_csv (fun _ => none) ["a", "bb"] = [] := by
  have h := C8_parse_smhi_csv_header_and_row_rules (fun _ => none) ["a", "bb"]
  exact h.1 (by decide)

/-! ## `weather.py` — aggregation into day / month / year points

The Wilson interval calls `math.sqrt`, so the numeric fields of an
aggregated point are modelled in `ℝ` (with `Real.sqrt`); the raw
observation values stay in `ℚ`. -/

/-- `MONTH_NAMES` from `smhi_client.py`. -/
def MONTH_NAMES : List String :=
  ["Jan", "Feb", "Mar", "Apr", "May", "Jun",
   "Jul", "Aug", "Sep", "Oct", "Nov", "Dec"]

/-- `LIGHTNING_CODES` from `smhi_client.py` (WMO present-weather codes). -/
def LIGHTNING_CODES : List ℤ :=
  [13, 17, 29, 91, 92, 93, 94, 95, 96, 97, 98, 99,
   112, 126, 190, 191, 192, 193, 194, 195, 196, 213, 217, 292, 293]

/-- Python `int(x)` on a float value: truncation toward zero. -/
def truncQ (q : ℚ) : ℤ := if 0 ≤ q then ⌊q⌋ else ⌈q⌉

/-- A weather bucket: `{"total": …, "lightning": …}` counters. -/
structure Bucket where
  total : ℕ
  lightning : ℕ
deriving DecidableEq, Inhabited

/-- An aggregated data point (the dict built by `_make_point`). -/
structure Point where
  label : String
  cloud_coverage_avg : Option ℝ
  lightning_probability : Option ℝ
  lightning_lower : Option ℝ
  lightning_upper : Option ℝ
  obs_count : ℕ
deriving Inhabited

/-- `_wilson_interval(successes, total)` with the default `z = 1.96`
(exactly `196/100` in the real-number model of the float literal). -/
noncomputable def wilson_interval (successes total : ℕ) : Option ℝ × Option ℝ :=
  if total = 0 then (none, none)
  else
    let z : ℝ := 196 / 100
    let p : ℝ := successes / total
    let denom : ℝ := 1 + z ^ 2 / total
    let center : ℝ := (p + z ^ 2 / (2 * total)) / denom
    let margin : ℝ := (z / denom) * Real.sqrt (p * (1 - p) / total + z ^ 2 / (4 * total ^ 2))
    (some (round2 (max 0 (center - margin) * 100)),
     some (round2 (min 1 (center + margin) * 100)))

/-- `MIN_CI_OBSERVATIONS = 30`. -/
def MIN_CI_OBSERVATIONS : ℕ := 30

/-- `_make_point(label, cloud_values, lightning_bucket, has_lightning_data)`.
The Python truthiness test `lightning_bucket and lightning_bucket["total"] > 0`
is modelled by the `Option Bucket` match plus the `0 < b.total` test (the
aggregators only ever build non-empty bucket dicts). -/
noncomputable def make_point (label : String) (cloud_values : List ℚ)
    (lightning_bucket : Option Bucket) (has_lightning_data : Bool) : Point :=
  let cloud_avg : Option ℝ :=
    if cloud_values.isEmpty then none
    else some (round1 ((cloud_values.map (fun q => (q : ℝ))).sum / cloud_values.length))
  match has_lightning_data, lightning_bucket with
  | true, some b =>
      if 0 < b.total then
        let pct : ℝ := round2 (((b.lightning : ℝ) / (b.total : ℝ)) * 100)
        if MIN_CI_OBSERVATIONS ≤ b.total then
          ⟨label, cloud_avg, some pct, (wilson_interval b.lightning b.total).1,
           (wilson_interval b.lightning b.total).2, cloud_values.length⟩
        else ⟨label, cloud_avg, some pct, none, none, cloud_values.length⟩
      else ⟨label, cloud_avg, none, none, none, cloud_values.length⟩
  | _, _ => ⟨label, cloud_avg, none, none, none, cloud_values.length⟩

/-- `int(row["date"].split("-")[0])` (the year segment).  Python `int` on a
non-numeric segment raises; dates are `YYYY-MM-DD` here, and the total model
returns 0 on malformed input. -/
def year_of (r : Row) : ℕ := (((r.date.splitOn "-").getD 0 "").toNat?).getD 0

/-- `int(row["date"].split("-")[1])` (the month segment). -/
def month_of (r : Row) : ℕ := (((r.date.splitOn "-").getD 1 "").toNat?).getD 0

/-- `int(row["date"].split("-")[2])` (the day segment). -/
def day_of (r : Row) : ℕ := (((r.date.splitOn "-").getD 2 "").toNat?).getD 0

/-- The cloud bucket for key `k`: the values of the rows whose key is `k`,
in row order (the `defaultdict(list)` append loop). -/
def cloud_bucket {κ : Type} [DecidableEq κ] (rows : List Row) (key : Row → κ) (k : κ) :
    List ℚ :=
  (rows.filter (fun r => key r = k)).map (·.value)

/-- The weather bucket for key `k`.  A `defaultdict` entry exists exactly
when some row touched the key, so `.get(k)` yields `none` exactly when the
total count is zero. -/
def weather_bucket {κ : Type} [DecidableEq κ] (rows : List Row) (key : Row → κ) (k : κ) :
    Option Bucket :=
  let total := (rows.filter (fun r => key r = k)).length
  let hits := (rows.filter (fun r => key r = k ∧ truncQ r.value ∈ LIGHTNING_CODES)).length
  if 0 < total then some ⟨total, hits⟩ else none

/-- `_aggregate_monthly`: one point per month 1..12, labelled
`MONTH_NAMES[m-1]`. -/
noncomputable def aggregate_monthly (cloud_rows weather_rows : List Row)
    (has_lightning_data : Bool) : List Point :=
  (List.range 12).map (fun i =>
    make_point (MONTH_NAMES.getD i "")
      (cloud_bucket cloud_rows month_of (i + 1))
      (weather_bucket weather_rows month_of (i + 1))
      has_lightning_data)

/-- `calendar.monthrange(2000, m)[1]`: day counts of the leap year 2000. -/
def days_in_month_2000 : ℕ → ℕ
  | 1 => 31 | 2 => 29 | 3 => 31 | 4 => 30 | 5 => 31 | 6 => 30
  | 7 => 31 | 8 => 31 | 9 => 30 | 10 => 31 | 11 => 30 | 12 => 31
  | _ => 0

/-- The `f"{d:02d}"` format: two digits with a leading zero. -/
def pad2 (d : ℕ) : String := if d < 10 then "0" ++ toString d else toString d

/-- `_aggregate_daily`: months 1..12, and within each month the days
1..`monthrange(2000, m)` of the leap year, keyed by (month, day). -/
noncomputable def aggregate_daily (cloud_rows weather_rows : List Row)
    (has_lightning_data : Bool) : List Point :=
  (List.range 12).flatMap (fun i =>
    (List.range (days_in_month_2000 (i + 1))).map (fun d0 =>
      make_point (MONTH_NAMES.getD i "" ++ " " ++ pad2 (d0 + 1))
        (cloud_bucket cloud_rows (fun r => (month_of r, day_of r)) (i + 1, d0 + 1))
        (weather_bucket weather_rows (fun r => (month_of r, day_of r)) (i + 1, d0 + 1))
        has_lightning_data))

/-- `sorted(set(cloud_by_year) | set(lightning_by_year))`: the ascending
deduplicated list of years occurring in either row set. -/
def sorted_years (cloud_rows weather_rows : List Row) : List ℕ :=
  List.insertionSort (fun a b => a ≤ b)
    (((cloud_rows.map year_of) ++ (weather_rows.map year_of)).dedup)

/-- `_aggregate_yearly`: one point per observed year, labelled `str(year)`. -/
noncomputable def aggregate_yearly (cloud_rows weather_rows : List Row)
    (has_lightning_data : Bool) : List Point :=
  (sorted_years cloud_rows weather_rows).map (fun y =>
    make_point (toString y)
      (cloud_bucket cloud_rows year_of y)
      (weather_bucket weather_rows year_of y)
      has_lightning_data)

@[simp] theorem make_point_label (label : String) (cv : List ℚ) (b : Option Bucket)
    (hl : Bool) : (make_point label cv b hl).label = label := by
  unfold make_point
  cases hl <;> cases b <;> dsimp only <;> split_ifs <;> rfl

@[simp] theorem make_point_obs_count (label : String) (cv : List ℚ) (b : Option Bucket)
    (hl : Bool) : (make_point label cv b hl).obs_count = cv.length := by
  unfold make_point
  cases hl <;> cases b <;> dsimp only <;> split_ifs <;> rfl

theorem make_point_cloud_avg (label : String) (cv : List ℚ) (b : Option Bucket)
    (hl : Bool) : (make_point label cv b hl).cloud_coverage_avg
      = (if cv.isEmpty then none
         else some (round1 ((cv.map (fun q => (q : ℝ))).sum / cv.length))) := by
  unfold make_point
  cases hl <;> cases b <;> dsimp only <;> split_ifs <;> rfl

theorem make_point_lightning_eq (label label' : String) (cv cv' : List ℚ)
    (b : Option Bucket) (hl : Bool) :
    (make_point label cv b hl).lightning_probability
        = (make_point label' cv' b hl).lightning_probability
    ∧ (make_point label cv b hl).lightning_lower
        = (make_point label' cv' b hl).lightning_lower
    ∧ (make_point label cv b hl).lightning_upper
        = (make_point label' cv' b hl).lightning_upper := by
  unfold make_point
  cases hl <;> cases b <;> dsimp only <;>
    first
      | (split_ifs <;> exact ⟨rfl, rfl, rfl⟩)
      | exact ⟨rfl, rfl, rfl⟩

/-- C1. Shapes and orderings of the three aggregators: monthly is exactly the
12 calendar months Jan..Dec in order; daily iterates months 1..12 and within
each month the days of the leap year 2000, 366 points in total, including a
`Feb 29` point; yearly has one point per element of the ascending,
duplicate-free union of the years of the cloud and weather rows. -/
theorem C1_aggregator_shapes (cloud_rows weather_rows : List Row) (hl : Bool) :
    ((aggregate_monthly cloud_rows weather_rows hl).map (·.label) = MONTH_NAMES
      ∧ (aggregate_monthly cloud_rows weather_rows hl).length = 12)
    ∧ ((aggregate_daily cloud_rows weather_rows hl).length = 366
      ∧ (aggregate_daily cloud_rows weather_rows hl).map (·.label)
          = (List.range 12).flatMap (fun i =>
              (List.range (days_in_month_2000 (i + 1))).map (fun d0 =>
                MONTH_NAMES.getD i "" ++ " " ++ pad2 (d0 + 1)))
      ∧ "Feb 29" ∈ (aggregate_daily cloud_rows weather_rows hl).map (·.label))
    ∧ (∃ ys : List ℕ,
        (aggregate_yearly cloud_rows weather_rows hl).map (·.label) = ys.map toString
        ∧ List.Sorted (fun a b => a < b) ys
        ∧ (∀ y, y ∈ ys ↔ (y ∈ cloud_rows.map year_of ∨ y ∈ weather_rows.map year_of))) := by
  refine ⟨⟨?_, ?_⟩, ⟨?_, ?_, ?_⟩, ?_⟩
  · simp only [aggregate_monthly, List.map_map, Function.comp_def, make_point_label]
    decide
  · simp [aggregate_monthly]
  · simp only [aggregate_daily, List.length_flatMap, Function.comp_def, List.length_map,
      List.length_range]
    decide
  · simp only [aggregate_daily, List.map_flatMap, List.map_map, Function.comp_def,
      make_point_label]
  · simp only [aggregate_daily, List.map_flatMap, List.map_map, Function.comp_def,
      make_point_label]
    decide
  · refine ⟨sorted_years cloud_rows weather_rows, ?_, ?_, ?_⟩
    · simp [aggregate_yearly, List.map_map, Function.comp_def]
    · have hs : List.Sorted (fun a b : ℕ => a ≤ b) (sorted_years cloud_rows weather_rows) := by
        unfold sorted_years
        exact List.sorted_insertionSort _ _
      have hnd : (sorted_years cloud_rows weather_rows).Nodup := by
        unfold sorted_years
        exact (List.perm_insertionSort _ _).nodup_iff.mpr (List.nodup_dedup _)
      have hp := List.Pairwise.and hs hnd
      exact hp.imp (fun h => lt_of_le_of_ne h.1 h.2)
    · intro y
      unfold sorted_years
      rw [List.mem_insertionSort, List.mem_dedup, List.mem_append]

/-- C10 (implicit). In `_make_point`: `obs_count` is exactly the number of
cloud observations; `cloud_coverage_avg` is null iff there are none; the
lightning fields depend only on the weather bucket and the flag; and a point
can have `obs_count = 0` with a non-null `lightning_probability`. -/
theorem C10_make_point_independent_dimensions :
    (∀ (label : String) (cv : List ℚ) (b : Option Bucket) (hl : Bool),
      (make_point label cv b hl).obs_count = cv.length)
    ∧ (∀ (label : String) (cv : List ℚ) (b : Option Bucket) (hl : Bool),
      ((make_point label cv b hl).cloud_coverage_avg = none ↔ cv.length = 0))
    ∧ (∀ (label label' : String) (cv cv' : List ℚ) (b : Option Bucket) (hl : Bool),
      (make_point label cv b hl).lightning_probability
          = (make_point label' cv' b hl).lightning_probability
      ∧ (make_point label cv b hl).lightning_lower
          = (make_point label' cv' b hl).lightning_lower
      ∧ (make_point label cv b hl).lightning_upper
          = (make_point label' cv' b hl).lightning_upper)
    ∧ (∃ (label : String) (b : Option Bucket),
      (make_point label [] b true).obs_count = 0
      ∧ (make_point label [] b true).lightning_probability ≠ none) := by
  refine ⟨fun label cv b hl => make_point_obs_count label cv b hl,
          fun label cv b hl => ?_,
          fun label label' cv cv' b hl => make_point_lightning_eq label label' cv cv' b hl,
          ⟨"x", some ⟨5, 1⟩, ?_, ?_⟩⟩
  · rcases cv with _ | ⟨a, tl⟩
    · simp [make_point_cloud_avg]
    · rw [make_point_cloud_avg]
      simp
  · simp
  · unfold make_point
    norm_num [MIN_CI_OBSERVATIONS]
    exact Option.some_ne_none _

/-! ### The Wilson interval brackets the point estimate (C3) -/

theorem wilson_bracket (p n : ℝ) (hp0 : 0 ≤ p) (hp1 : p ≤ 1) (hn : 1 ≤ n) :
    (p + (196 / 100 : ℝ) ^ 2 / (2 * n)) / (1 + (196 / 100 : ℝ) ^ 2 / n)
        - ((196 / 100 : ℝ) / (1 + (196 / 100 : ℝ) ^ 2 / n))
          * Real.sqrt (p * (1 - p) / n + (196 / 100 : ℝ) ^ 2 / (4 * n ^ 2)) ≤ p
    ∧ p ≤ (p + (196 / 100 : ℝ) ^ 2 / (2 * n)) / (1 + (196 / 100 : ℝ) ^ 2 / n)
        + ((196 / 100 : ℝ) / (1 + (196 / 100 : ℝ) ^ 2 / n))
          * Real.sqrt (p * (1 - p) / n + (196 / 100 : ℝ) ^ 2 / (4 * n ^ 2)) := by
  have hn0 : (0 : ℝ) < n := lt_of_lt_of_le one_pos hn
  have hz0 : (0 : ℝ) < 196 / 100 := by norm_num
  have hden : (0 : ℝ) < 1 + (196 / 100 : ℝ) ^ 2 / n := by positivity
  have hpq : (0 : ℝ) ≤ p * (1 - p) := mul_nonneg hp0 (by linarith)
  -- Cleared form of the key inequality.
  have hcl : ((196 / 100 : ℝ) * |p - 1 / 2|) ^ 2
      ≤ n * (p * (1 - p)) + (196 / 100 : ℝ) ^ 2 / 4 := by
    rw [mul_pow, sq_abs]
    nlinarith [mul_nonneg hpq hn0.le, mul_nonneg (sq_nonneg (196 / 100 : ℝ)) hpq]
  have hB0 : (0 : ℝ) ≤ n * (p * (1 - p)) + (196 / 100 : ℝ) ^ 2 / 4 :=
    le_trans (sq_nonneg _) hcl
  have h1 : (196 / 100 : ℝ) * |p - 1 / 2|
      ≤ Real.sqrt (n * (p * (1 - p)) + (196 / 100 : ℝ) ^ 2 / 4) := by
    have h0 : 0 ≤ (196 / 100 : ℝ) * |p - 1 / 2| := mul_nonneg hz0.le (abs_nonneg _)
    have hs := Real.sqrt_le_sqrt hcl
    rwa [Real.sqrt_sq h0] at hs
  -- The argument of the square root, rewritten over the common denominator n².
  have hA : p * (1 - p) / n + (196 / 100 : ℝ) ^ 2 / (4 * n ^ 2)
      = (n * (p * (1 - p)) + (196 / 100 : ℝ) ^ 2 / 4) * (1 / n) ^ 2 := by
    field_simp
    ring
  have hmargin : (196 / 100 : ℝ) / n * |p - 1 / 2|
      ≤ Real.sqrt (p * (1 - p) / n + (196 / 100 : ℝ) ^ 2 / (4 * n ^ 2)) := by
    rw [hA, Real.sqrt_mul hB0, Real.sqrt_sq (by positivity : (0 : ℝ) ≤ 1 / n)]
    calc (196 / 100 : ℝ) / n * |p - 1 / 2|
        = ((196 / 100 : ℝ) * |p - 1 / 2|) * (1 / n) := by ring
      _ ≤ Real.sqrt (n * (p * (1 - p)) + (196 / 100 : ℝ) ^ 2 / 4) * (1 / n) :=
          mul_le_mul_of_nonneg_right h1 (by positivity)
  -- |p - center| in closed form.
  have hpc : p - (p + (196 / 100 : ℝ) ^ 2 / (2 * n)) / (1 + (196 / 100 : ℝ) ^ 2 / n)
      = ((196 / 100 : ℝ) ^ 2 / n) * (p - 1 / 2) / (1 + (196 / 100 : ℝ) ^ 2 / n) := by
    field_simp
    ring
  have habs : |p - (p + (196 / 100 : ℝ) ^ 2 / (2 * n)) / (1 + (196 / 100 : ℝ) ^ 2 / n)|
      = ((196 / 100 : ℝ) ^ 2 / n) * |p - 1 / 2| / (1 + (196 / 100 : ℝ) ^ 2 / n) := by
    rw [hpc, abs_div, abs_mul]
    rw [abs_of_pos hden, abs_of_pos (by positivity : (0 : ℝ) < (196 / 100 : ℝ) ^ 2 / n)]
  have hkey : |p - (p + (196 / 100 : ℝ) ^ 2 / (2 * n)) / (1 + (196 / 100 : ℝ) ^ 2 / n)|
      ≤ ((196 / 100 : ℝ) / (1 + (196 / 100 : ℝ) ^ 2 / n))
        * Real.sqrt (p * (1 - p) / n + (196 / 100 : ℝ) ^ 2 / (4 * n ^ 2)) := by
    rw [habs]
    have step := mul_le_mul_of_nonneg_left hmargin
      (by positivity : (0 : ℝ) ≤ (196 / 100 : ℝ) / (1 + (196 / 100 : ℝ) ^ 2 / n))
    calc ((196 / 100 : ℝ) ^ 2 / n) * |p - 1 / 2| / (1 + (196 / 100 : ℝ) ^ 2 / n)
        = ((196 / 100 : ℝ) / (1 + (196 / 100 : ℝ) ^ 2 / n))
            * ((196 / 100 : ℝ) / n * |p - 1 / 2|) := by ring
      _ ≤ _ := step
  rw [abs_le] at hkey
  constructor <;> linarith [hkey.1, hkey.2]

theorem make_point_ci_fields (label : String) (cv : List ℚ) (total hits : ℕ)
    (h0 : 0 < total) (h30 : MIN_CI_OBSERVATIONS ≤ total) :
    (make_point label cv (some ⟨total, hits⟩) true).lightning_probability
        = some (round2 (((hits : ℝ) / (total : ℝ)) * 100))
    ∧ (make_point label cv (some ⟨total, hits⟩) true).lightning_lower
        = (wilson_interval hits total).1
    ∧ (make_point label cv (some ⟨total, hits⟩) true).lightning_upper
        = (wilson_interval hits total).2 := by
  unfold make_point
  dsimp only
  rw [if_pos h0, if_pos h30]
  exact ⟨rfl, rfl, rfl⟩

theorem make_point_no_ci_fields (label : String) (cv : List ℚ) (total hits : ℕ)
    (h0 : 0 < total) (h30 : total < MIN_CI_OBSERVATIONS) :
    (make_point label cv (some ⟨total, hits⟩) true).lightning_probability
        = some (round2 (((hits : ℝ) / (total : ℝ)) * 100))
    ∧ (make_point label cv (some ⟨total, hits⟩) true).lightning_lower = none
    ∧ (make_point label cv (some ⟨total, hits⟩) true).lightning_upper = none := by
  unfold make_point
  dsimp only
  rw [if_pos h0, if_neg (by omega : ¬ MIN_CI_OBSERVATIONS ≤ total)]
  exact ⟨rfl, rfl, rfl⟩

theorem round2_min_mul_le (X : ℝ) : round2 (min 1 X * 100) ≤ 100 := by
  have h : min 1 X * 100 ≤ ((100 : ℤ) : ℝ) := by
    have hm := min_le_left (1 : ℝ) X
    push_cast
    nlinarith
  simpa using round2_le_of_le h

theorem wilson_interval_bounds (s t : ℕ) (hst : s ≤ t) (ht : 0 < t) :
    ∃ lo hi, wilson_interval s t = (some lo, some hi)
      ∧ 0 ≤ lo ∧ lo ≤ round2 (((s : ℝ) / (t : ℝ)) * 100)
      ∧ round2 (((s : ℝ) / (t : ℝ)) * 100) ≤ hi ∧ hi ≤ 100 := by
  have hnz : t ≠ 0 := Nat.pos_iff_ne_zero.mp ht
  have hn : (1 : ℝ) ≤ (t : ℝ) := by exact_mod_cast ht
  have hn0 : (0 : ℝ) < (t : ℝ) := by exact_mod_cast ht
  have hp0 : (0 : ℝ) ≤ (s : ℝ) / (t : ℝ) := by positivity
  have hp1 : (s : ℝ) / (t : ℝ) ≤ 1 := by
    rw [div_le_one hn0]
    exact_mod_cast hst
  obtain ⟨hbl, hbu⟩ := wilson_bracket ((s : ℝ) / (t : ℝ)) (t : ℝ) hp0 hp1 hn
  unfold wilson_interval
  rw [if_neg hnz]
  dsimp only
  refine ⟨_, _, rfl, ?_, ?_, ?_, ?_⟩
  · exact round2_nonneg (by positivity)
  · exact round2_mono (mul_le_mul_of_nonneg_right (max_le hp0 hbl) (by norm_num))
  · exact round2_mono (mul_le_mul_of_nonneg_right (le_min hp1 hbu) (by norm_num))
  · exact round2_min_mul_le _

/-- C3. For a point built by `_make_point` with lightning data and a weather
bucket with `0 < total ≥ 30`: the Wilson bounds are non-null, lie in
`[0, 100]`, and bracket the rounded probability; for `0 < total < 30` the
probability is non-null but both bounds are null. -/
theorem C3_wilson_ci_brackets_probability (label : String) (cv : List ℚ)
    (total hits : ℕ) (hht : hits ≤ total) (h0 : 0 < total) :
    (MIN_CI_OBSERVATIONS ≤ total →
      ∃ p lo hi,
        (make_point label cv (some ⟨total, hits⟩) true).lightning_probability = some p
        ∧ (make_point label cv (some ⟨total, hits⟩) true).lightning_lower = some lo
        ∧ (make_point label cv (some ⟨total, hits⟩) true).lightning_upper = some hi
        ∧ 0 ≤ lo ∧ lo ≤ 100 ∧ 0 ≤ hi ∧ hi ≤ 100 ∧ lo ≤ p ∧ p ≤ hi)
    ∧ (total < MIN_CI_OBSERVATIONS →
      (∃ p, (make_point label cv (some ⟨total, hits⟩) true).lightning_probability = some p)
      ∧ (make_point label cv (some ⟨total, hits⟩) true).lightning_lower = none
      ∧ (make_point label cv (some ⟨total, hits⟩) true).lightning_upper = none) := by
  constructor
  · intro h30
    obtain ⟨hprob, hlow, hup⟩ := make_point_ci_fields label cv total hits h0 h30
    obtain ⟨lo, hi, hwi, hlo0, hlop, hphi, hhi100⟩ := wilson_interval_bounds hits total hht h0
    refine ⟨round2 (((hits : ℝ) / (total : ℝ)) * 100), lo, hi, hprob, ?_, ?_, hlo0, ?_, ?_,
      hhi100, hlop, hphi⟩
    · rw [hlow, hwi]
    · rw [hup, hwi]
    · linarith
    · linarith
  · intro h30
    obtain ⟨hprob, hlow, hup⟩ := make_point_no_ci_fields label cv total hits h0 h30
    exact ⟨⟨_, hprob⟩, hlow, hup⟩

/-- Witness for C3 at the concrete bucket `{total: 100, lightning: 5}`. -/
theorem C3_wilson_ci_brackets_probability_witness :
    ∃ p lo hi,
      (make_point "x" [] (some ⟨100, 5⟩) true).lightning_probability = some p
      ∧ (make_point "x" [] (some ⟨100, 5⟩) true).lightning_lower = some lo
      ∧ (make_point "x" [] (some ⟨100, 5⟩) true).lightning_upper = some hi
      ∧ 0 ≤ lo ∧ lo ≤ 100 ∧ 0 ≤ hi ∧ hi ≤ 100 ∧ lo ≤ p ∧ p ≤ hi :=
  (C3_wilson_ci_brackets_probability "x" [] 100 5 (by decide) (by decide)).1 (by decide)

/-! ## `weather.py` — blending helpers (`_blend_cloud_point`, `_blend_lightning_point`) -/

/-- The blended cloud dict `{label, cloud_coverage_avg, obs_count}`. -/
structure CloudBlendPoint where
  label : String
  cloud_coverage_avg : Option ℝ
  obs_count : ℕ

/-- The blended lightning dict
`{label, lightning_probability, lightning_lower, lightning_upper, lightning_obs_count}`. -/
structure LightningBlendPoint where
  label : String
  lightning_probability : Option ℝ
  lightning_lower : Option ℝ
  lightning_upper : Option ℝ
  lightning_obs_count : ℕ

/-- One `if pt[field] is not None: sum += v * w; w += w` accumulation step. -/
def opt_acc (x : Option ℝ) (w : ℝ) (sw : ℝ × ℝ) : ℝ × ℝ :=
  match x with
  | some v => (sw.1 + v * w, sw.2 + w)
  | none => sw

/-- The pairs `(weight, value)` of the entries whose `f`-field is non-null,
in entry order. -/
def opt_contribs (f : Point → Option ℝ) (entries : List (ℝ × Point)) : List (ℝ × ℝ) :=
  entries.filterMap (fun e => (f e.2).map (fun c => (e.1, c)))

/-- `_blend_cloud_point(label, entries)`: weighted mean over the non-null
cloud values, total observation count over all entries. -/
noncomputable def blend_cloud_point (label : String) (entries : List (ℝ × Point)) : CloudBlendPoint :=
  let acc := entries.foldl
    (fun (acc : (ℝ × ℝ) × ℕ) e =>
      (opt_acc e.2.cloud_coverage_avg e.1 acc.1, acc.2 + e.2.obs_count))
    ((0, 0), 0)
  { label := label
    cloud_coverage_avg :=
      if 0 < acc.1.2 then some (round1 (acc.1.1 / acc.1.2)) else none
    obs_count := acc.2 }

/-- `_blend_lightning_point(label, entries)`: independent weighted means for
probability, lower and upper, each over its own non-null entries. -/
noncomputable def blend_lightning_point (label : String) (entries : List (ℝ × Point)) :
    LightningBlendPoint :=
  let acc := entries.foldl
    (fun (acc : (ℝ × ℝ) × (ℝ × ℝ) × (ℝ × ℝ) × ℕ) e =>
      (opt_acc e.2.lightning_probability e.1 acc.1,
       opt_acc e.2.lightning_lower e.1 acc.2.1,
       opt_acc e.2.lightning_upper e.1 acc.2.2.1,
       acc.2.2.2 + e.2.obs_count))
    ((0, 0), (0, 0), (0, 0), 0)
  { label := label
    lightning_probability :=
      if 0 < acc.1.2 then some (round2 (acc.1.1 / acc.1.2)) else none
    lightning_lower :=
      if 0 < acc.2.1.2 then some (round2 (acc.2.1.1 / acc.2.1.2)) else none
    lightning_upper :=
      if 0 < acc.2.2.1.2 then some (round2 (acc.2.2.1.1 / acc.2.2.1.2)) else none
    lightning_obs_count := acc.2.2.2 }

theorem cloud_fold_eq (entries : List (ℝ × Point)) :
    ∀ (a : (ℝ × ℝ) × ℕ),
      entries.foldl (fun (acc : (ℝ × ℝ) × ℕ) e =>
          (opt_acc e.2.cloud_coverage_avg e.1 acc.1, acc.2 + e.2.obs_count)) a
        = ((a.1.1 + ((opt_contribs (·.cloud_coverage_avg) entries).map
              (fun x => x.2 * x.1)).sum,
            a.1.2 + ((opt_contribs (·.cloud_coverage_avg) entries).map Prod.fst).sum),
           a.2 + (entries.map (fun e => e.2.obs_count)).sum) := by
  induction entries with
  | nil =>
      intro a
      simp [opt_contribs]
  | cons e tl ih =>
      intro a
      obtain ⟨w, pt⟩ := e
      rw [List.foldl_cons, ih]
      cases hc : pt.cloud_coverage_avg with
      | none =>
          simp only [opt_contribs, List.filterMap_cons, hc, Option.map_none', List.map_cons,
            List.sum_cons, opt_acc]
          refine Prod.ext (Prod.ext ?_ ?_) ?_ <;> dsimp <;> first | ring | omega
      | some c =>
          simp only [opt_contribs, List.filterMap_cons, hc, Option.map_some', List.map_cons,
            List.sum_cons, opt_acc]
          refine Prod.ext (Prod.ext ?_ ?_) ?_ <;> dsimp <;> first | ring | omega

theorem lightning_fold_eq (entries : List (ℝ × Point)) :
    ∀ (a : (ℝ × ℝ) × (ℝ × ℝ) × (ℝ × ℝ) × ℕ),
      entries.foldl (fun (acc : (ℝ × ℝ) × (ℝ × ℝ) × (ℝ × ℝ) × ℕ) e =>
          (opt_acc e.2.lightning_probability e.1 acc.1,
           opt_acc e.2.lightning_lower e.1 acc.2.1,
           opt_acc e.2.lightning_upper e.1 acc.2.2.1,
           acc.2.2.2 + e.2.obs_count)) a
        = ((a.1.1 + ((opt_contribs (·.lightning_probability) entries).map
              (fun x => x.2 * x.1)).sum,
            a.1.2 + ((opt_contribs (·.lightning_probability) entries).map Prod.fst).sum),
           (a.2.1.1 + ((opt_contribs (·.lightning_lower) entries).map
              (fun x => x.2 * x.1)).sum,
            a.2.1.2 + ((opt_contribs (·.lightning_lower) entries).map Prod.fst).sum),
           (a.2.2.1.1 + ((opt_contribs (·.lightning_upper) entries).map
              (fun x => x.2 * x.1)).sum,
            a.2.2.1.2 + ((opt_contribs (·.lightning_upper) entries).map Prod.fst).sum),
           a.2.2.2 + (entries.map (fun e => e.2.obs_count)).sum) := by
  induction entries with
  | nil =>
      intro a
      simp [opt_contribs]
  | cons e tl ih =>
      intro a
      obtain ⟨w, pt⟩ := e
      rw [List.foldl_cons, ih]
      cases hp : pt.lightning_probability <;> cases hl : pt.lightning_lower <;>
        cases hu : pt.lightning_upper <;>
        · simp only [opt_contribs, List.filterMap_cons, hp, hl, hu, Option.map_none',
            Option.map_some', List.map_cons, List.sum_cons, opt_acc]
          refine Prod.ext (Prod.ext ?_ ?_) (Prod.ext (Prod.ext ?_ ?_)
            (Prod.ext (Prod.ext ?_ ?_) ?_)) <;> dsimp <;> first | ring | omega

theorem blend_cloud_point_eq (label : String) (entries : List (ℝ × Point)) :
    blend_cloud_point label entries =
      { label := label
        cloud_coverage_avg :=
          if 0 < ((opt_contribs (·.cloud_coverage_avg) entries).map Prod.fst).sum
          then some (round1 (((opt_contribs (·.cloud_coverage_avg) entries).map
              (fun x => x.2 * x.1)).sum
            / ((opt_contribs (·.cloud_coverage_avg) entries).map Prod.fst).sum))
          else none
        obs_count := (entries.map (fun e => e.2.obs_count)).sum } := by
  unfold blend_cloud_point
  rw [cloud_fold_eq entries ((0, 0), 0)]
  dsimp only
  simp only [zero_add]

theorem blend_lightning_point_eq (label : String) (entries : List (ℝ × Point)) :
    blend_lightning_point label entries =
      { label := label
        lightning_probability :=
          if 0 < ((opt_contribs (·.lightning_probability) entries).map Prod.fst).sum
          then some (round2 (((opt_contribs (·.lightning_probability) entries).map
              (fun x => x.2 * x.1)).sum
            / ((opt_contribs (·.lightning_probability) entries).map Prod.fst).sum))
          else none
        lightning_lower :=
          if 0 < ((opt_contribs (·.lightning_lower) entries).map Prod.fst).sum
          then some (round2 (((opt_contribs (·.lightning_lower) entries).map
              (fun x => x.2 * x.1)).sum
            / ((opt_contribs (·.lightning_lower) entries).map Prod.fst).sum))
          else none
        lightning_upper :=
          if 0 < ((opt_contribs (·.lightning_upper) entries).map Prod.fst).sum
          then some (round2 (((opt_contribs (·.lightning_upper) entries).map
              (fun x => x.2 * x.1)).sum
            / ((opt_contribs (·.lightning_upper) entries).map Prod.fst).sum))
          else none
        lightning_obs_count := (entries.map (fun e => e.2.obs_count)).sum } := by
  unfold blend_lightning_point
  rw [lightning_fold_eq entries ((0, 0), (0, 0), (0, 0), 0)]
  dsimp only
  simp only [zero_add]

theorem opt_contribs_of_proj_eq {γ : Type} (field : Point → Option ℝ)
    (f : (ℝ × Point) → γ) (g : γ → Option ℝ) (w : γ → ℝ)
    (hw : ∀ e, w (f e) = e.1) (hg : ∀ e, g (f e) = field e.2)
    {e₁ e₂ : List (ℝ × Point)} (h : e₁.map f = e₂.map f) :
    opt_contribs field e₁ = opt_contribs field e₂ := by
  unfold opt_contribs
  have key : ∀ (l : List (ℝ × Point)),
      l.filterMap (fun e => (field e.2).map (fun c => (e.1, c)))
        = (l.map f).filterMap (fun t => (g t).map (fun c => (w t, c))) := by
    intro l
    rw [List.filterMap_map]
    apply List.filterMap_congr
    intro e _
    rw [Function.comp_apply, hw e, hg e]
  rw [key, key, h]

theorem obs_map_of_proj_eq {γ : Type} (f : (ℝ × Point) → γ) (g : γ → ℕ)
    {e₁ e₂ : List (ℝ × Point)} (hf : ∀ e, g (f e) = e.2.obs_count)
    (h : e₁.map f = e₂.map f) :
    e₁.map (fun e => e.2.obs_count) = e₂.map (fun e => e.2.obs_count) := by
  have h2 := congrArg (List.map g) h
  rw [List.map_map, List.map_map] at h2
  calc e₁.map (fun e => e.2.obs_count)
      = e₁.map (g ∘ f) := by
        apply List.map_congr_left
        intro e _
        exact (hf e).symm
    _ = e₂.map (g ∘ f) := h2
    _ = e₂.map (fun e => e.2.obs_count) := by
        apply List.map_congr_left
        intro e _
        exact hf e

/-- C4. Each blend is the weight-renormalized mean over exactly the entries
whose respective field is non-null (null when none contribute); each blend
reads only its own dimension's fields; and the concrete blends of the claim
evaluate to 68.0 (cloud) and 7.0 (lightning). -/
theorem C4_blend_weighted_means_isolated :
    (∀ (label : String) (entries : List (ℝ × Point)),
      (blend_cloud_point label entries).cloud_coverage_avg
        = (if 0 < ((opt_contribs (·.cloud_coverage_avg) entries).map Prod.fst).sum
           then some (round1 (((opt_contribs (·.cloud_coverage_avg) entries).map
               (fun x => x.2 * x.1)).sum
             / ((opt_contribs (·.cloud_coverage_avg) entries).map Prod.fst).sum))
           else none)
      ∧ (blend_cloud_point label entries).obs_count
          = (entries.map (fun e => e.2.obs_count)).sum)
    ∧ (∀ (label : String) (entries : List (ℝ × Point)),
      (blend_lightning_point label entries).lightning_probability
        = (if 0 < ((opt_contribs (·.lightning_probability) entries).map Prod.fst).sum
           then some (round2 (((opt_contribs (·.lightning_probability) entries).map
               (fun x => x.2 * x.1)).sum
             / ((opt_contribs (·.lightning_probability) entries).map Prod.fst).sum))
           else none)
      ∧ (blend_lightning_point label entries).lightning_obs_count
          = (entries.map (fun e => e.2.obs_count)).sum)
    ∧ (∀ (label : String) (e₁ e₂ : List (ℝ × Point)),
        e₁.map (fun e => (e.1, e.2.cloud_coverage_avg, e.2.obs_count))
          = e₂.map (fun e => (e.1, e.2.cloud_coverage_avg, e.2.obs_count)) →
        blend_cloud_point label e₁ = blend_cloud_point label e₂)
    ∧ (∀ (label : String) (e₁ e₂ : List (ℝ × Point)),
        e₁.map (fun e => (e.1, e.2.lightning_probability, e.2.lightning_lower,
            e.2.lightning_upper, e.2.obs_count))
          = e₂.map (fun e => (e.1, e.2.lightning_probability, e.2.lightning_lower,
            e.2.lightning_upper, e.2.obs_count)) →
        blend_lightning_point label e₁ = blend_lightning_point label e₂)
    ∧ ((blend_cloud_point "Jan"
          [((7 : ℝ) / 10, ⟨"", some 80, some 99, some 1, some 2, 100⟩),
           ((3 : ℝ) / 10, ⟨"", some 40, none, none, none, 100⟩)]).cloud_coverage_avg
        = some 68
      ∧ (blend_lightning_point "Jan"
          [((6 : ℝ) / 10, ⟨"", some 123, some 5, some 3, some 8, 100⟩),
           ((4 : ℝ) / 10, ⟨"", some 55, some 10, some 7, some 14, 100⟩)]).lightning_probability
        = some 7) := by
  refine ⟨?_, ?_, ?_, ?_, ?_, ?_⟩
  · intro label entries
    rw [blend_cloud_point_eq]
    exact ⟨rfl, rfl⟩
  · intro label entries
    rw [blend_lightning_point_eq]
    exact ⟨rfl, rfl⟩
  · intro label e₁ e₂ h
    have hc := opt_contribs_of_proj_eq (·.cloud_coverage_avg)
      (fun e => (e.1, e.2.cloud_coverage_avg, e.2.obs_count))
      (fun t => t.2.1) (fun t => t.1) (fun e => rfl) (fun e => rfl) h
    have ho := obs_map_of_proj_eq
      (fun e => (e.1, e.2.cloud_coverage_avg, e.2.obs_count))
      (fun t => t.2.2) (fun e => rfl) h
    rw [blend_cloud_point_eq, blend_cloud_point_eq, hc, ho]
  · intro label e₁ e₂ h
    have hcp := opt_contribs_of_proj_eq (·.lightning_probability)
      (fun e => (e.1, e.2.lightning_probability, e.2.lightning_lower,
        e.2.lightning_upper, e.2.obs_count))
      (fun t => t.2.1) (fun t => t.1) (fun e => rfl) (fun e => rfl) h
    have hcl := opt_contribs_of_proj_eq (·.lightning_lower)
      (fun e => (e.1, e.2.lightning_probability, e.2.lightning_lower,
        e.2.lightning_upper, e.2.obs_count))
      (fun t => t.2.2.1) (fun t => t.1) (fun e => rfl) (fun e => rfl) h
    have hcu := opt_contribs_of_proj_eq (·.lightning_upper)
      (fun e => (e.1, e.2.lightning_probability, e.2.lightning_lower,
        e.2.lightning_upper, e.2.obs_count))
      (fun t => t.2.2.2.1) (fun t => t.1) (fun e => rfl) (fun e => rfl) h
    have ho := obs_map_of_proj_eq
      (fun e => (e.1, e.2.lightning_probability, e.2.lightning_lower,
        e.2.lightning_upper, e.2.obs_count))
      (fun t => t.2.2.2.2) (fun e => rfl) h
    rw [blend_lightning_point_eq, blend_lightning_point_eq, hcp, hcl, hcu, ho]
  · rw [blend_cloud_point_eq]
    dsimp only
    norm_num [opt_contribs, List.filterMap_cons]
    rw [show ((68 : ℝ)) = (((68 : ℤ)) : ℝ) from by norm_num, round1_intCast]
  · rw [blend_lightning_point_eq]
    dsimp only
    norm_num [opt_contribs, List.filterMap_cons]
    rw [show ((7 : ℝ)) = (((7 : ℤ)) : ℝ) from by norm_num, round2_intCast]

/-- Witness for C4: two concrete entry lists that agree on the cloud
dimension but differ in their lightning fields blend to the same cloud
point. -/
theorem C4_blend_weighted_means_isolated_witness :
    blend_cloud_point "Jan"
        [((7 : ℝ) / 10, ⟨"", some 80, some 99, some 1, some 2, 100⟩),
         ((3 : ℝ) / 10, ⟨"", some 40, none, none, none, 100⟩)]
      = blend_cloud_point "Jan"
        [((7 : ℝ) / 10, ⟨"", some 80, none, some 3, none, 100⟩),
         ((3 : ℝ) / 10, ⟨"", some 40, some 50, none, some 9, 100⟩)] :=
  C4_blend_weighted_means_isolated.2.2.1 "Jan" _ _ rfl

/-! ## `quality.py` — report-card data quality assessment

Levels are the strings `"poor"/"fair"/"good"` and `"low"/"medium"/"high"`;
they are modelled as inductive labels, with `_LEVEL_ORDER`, `_FACTOR_LEVELS`
and `_LEVEL_MAP` as total functions on them.

The module-level `_EMPTY_DIM` holds two nested dicts; `dict(_EMPTY_DIM)` is a
shallow copy, so every copy shares those two dicts, and the only fields ever
written through them are the two `summary` strings.  `Cells` is that shared
mutable state; `compute_quality` threads it explicitly, and any dim built
from `dict(_EMPTY_DIM)` shows the final summary values of the call. -/

inductive FactorLevel where
  | poor
  | fair
  | good
deriving DecidableEq, Inhabited

inductive OverallLevel where
  | low
  | medium
  | high
deriving DecidableEq, Inhabited

/-- `_LEVEL_ORDER = {"poor": 0, "fair": 1, "good": 2}`. -/
def LEVEL_ORDER : FactorLevel → ℕ
  | .poor => 0
  | .fair => 1
  | .good => 2

/-- `_FACTOR_LEVELS = ("poor", "fair", "good")` as indexing. -/
def FACTOR_LEVELS : ℕ → FactorLevel
  | 0 => .poor
  | 1 => .fair
  | _ => .good

/-- `_LEVEL_MAP = {0: "low", 1: "medium", 2: "high"}`. -/
def LEVEL_MAP : ℕ → OverallLevel
  | 0 => .low
  | 1 => .medium
  | _ => .high

/-- `_FACTOR_LEVELS[min(order a, order b)]`: the worse of two factor levels. -/
def min_level (a b : FactorLevel) : FactorLevel :=
  FACTOR_LEVELS (min (LEVEL_ORDER a) (LEVEL_ORDER b))

/-- `_GOOD_OBS.get(resolution, 500)`. -/
def GOOD_OBS (resolution : String) : ℕ :=
  if resolution = "day" then 30
  else if resolution = "month" then 500
  else if resolution = "year" then 2000
  else 500

def COVERAGE_GOOD : ℚ := 90
def COVERAGE_FAIR : ℚ := 60
def DEPTH_GOOD : ℚ := 70
def DEPTH_FAIR : ℚ := 40
def PROX_GOOD_KM : ℚ := 25
def PROX_FAIR_KM : ℚ := 75
def DIR_GOOD_DEG : ℚ := 180
def DIR_FAIR_DEG : ℚ := 90

/-- `_classify(value, good_thresh, fair_thresh, higher_is_better)`. -/
def classify (value good_thresh fair_thresh : ℚ) (higher_is_better : Bool) : FactorLevel :=
  if higher_is_better then
    if good_thresh ≤ value then .good
    else if fair_thresh ≤ value then .fair
    else .poor
  else
    if value ≤ good_thresh then .good
    else if value ≤ fair_thresh then .fair
    else .poor

/-- Python `b % 360.0` on a float. -/
def qmod360 (b : ℚ) : ℚ := b - 360 * ⌊b / 360⌋

/-- `_angular_spread(bearings)`: the minimum arc containing all bearings,
computed as `360 - max_gap` over the circularly sorted list. -/
def angular_spread (bearings : List ℚ) : ℚ :=
  if bearings.length ≤ 1 then 0
  else
    let s := List.insertionSort (fun a b => a ≤ b) (bearings.map qmod360)
    let max_gap := ((s.zip s.tail).map (fun p => p.2 - p.1)).foldl max 0
    let wrap_gap := (360 - s.getLast?.getD 0) + s.getD 0 0
    round1 (360 - max max_gap wrap_gap)

/-- `_COMPASS_NAMES`. -/
def COMPASS_NAMES : List String :=
  ["north", "north-northeast", "northeast", "east-northeast",
   "east", "east-southeast", "southeast", "south-southeast",
   "south", "south-southwest", "southwest", "west-southwest",
   "west", "west-northwest", "northwest", "north-northwest"]

/-- `_compass_direction(bearing)`: `round(bearing / 22.5) % 16` into the
16-wind names. -/
def compass_direction (bearing : ℚ) : String :=
  COMPASS_NAMES.getD ((rhe (bearing / (45 / 2)) % 16).toNat) ""

/-- One factor of the report card: `{value, level, summary}`. -/
structure FactorResult where
  value : ℚ
  level : FactorLevel
  summary : String
deriving DecidableEq, Inhabited

/-- One dimension: `{station_coverage, historical_data}`. -/
structure DimResult where
  station_coverage : FactorResult
  historical_data : FactorResult
deriving DecidableEq, Inhabited

/-- The two shared, mutable `summary` slots of the `_EMPTY_DIM` sub-dicts. -/
structure Cells where
  sc : String
  hd : String
deriving DecidableEq, Inhabited

/-- The summary strings `_EMPTY_DIM` is initialised with at import time. -/
def INITIAL_CELLS : Cells :=
  ⟨"No station data available.", "No historical data available."⟩

/-- `dict(_EMPTY_DIM)`: values and levels are the constants 0 / poor, the
summaries alias the shared cells. -/
def empty_dim (cells : Cells) : DimResult :=
  ⟨⟨0, .poor, cells.sc⟩, ⟨0, .poor, cells.hd⟩⟩

/-- The full quality report: `{level, cloud, lightning}`. -/
structure QualityResult where
  level : OverallLevel
  cloud : DimResult
  lightning : DimResult
deriving DecidableEq, Inhabited

/-- A station entry after weight normalisation (`{station, raw_weight,
weight}` plus whatever else the dict carries that quality ignores). -/
structure WEntry where
  station : Station
  raw_weight : ℚ
  weight : ℚ
deriving DecidableEq, Inhabited

/-- Python `max(values)` over a non-empty float list (0 as junk default for
the empty case, which the callers guard against). -/
def list_max (l : List ℚ) : ℚ :=
  match l with
  | [] => 0
  | x :: xs => xs.foldl max x

/-- Python `max(station_data, key=weight)`: the first entry of maximal
weight. -/
def list_argmax_weight : List WEntry → WEntry
  | [] => default
  | x :: xs => xs.foldl (fun acc e => if acc.weight < e.weight then e else acc) x

/-- `sum(sd["station"]["distance_km"] * sd["weight"] for sd in station_data)`. -/
def avg_dist_of (sd : List WEntry) : ℚ :=
  (sd.map (fun e => e.station.distance_km * e.weight)).sum

/-- The proximity grade: `_classify(avg_dist, 25, 75, higher_is_better=False)`. -/
def prox_level_of (sd : List WEntry) : FactorLevel :=
  classify (avg_dist_of sd) PROX_GOOD_KM PROX_FAIR_KM false

/-- The proximity bar value: `max(0, min(100, round((1 - min(avg,200)/200)*100, 1)))`. -/
def prox_val_of (sd : List WEntry) : ℚ :=
  max 0 (min 100 (round1 ((1 - (min (avg_dist_of sd) 200) / 200) * 100)))

/-- The compass bearings from the target to each station, through the
abstract trigonometric `_bearing` function `bear`. -/
def bearings_of (bear : ℚ → ℚ → ℚ → ℚ → ℚ) (target_lat target_lng : ℚ)
    (sd : List WEntry) : List ℚ :=
  sd.map (fun e => bear target_lat target_lng e.station.latitude e.station.longitude)

/-- The directional grade: `_classify(spread, 180, 90)`. -/
def dir_level_of (bearings : List ℚ) : FactorLevel :=
  classify (angular_spread bearings) DIR_GOOD_DEG DIR_FAIR_DEG true

/-- The directional bar value: `round(min(spread/360, 1.0)*100, 1)`. -/
def dir_val_of (bearings : List ℚ) : ℚ :=
  round1 ((min (angular_spread bearings / 360) 1) * 100)

/-- The dominant-station override on the directional grade: `good` when the
maximal weight is ≥ 0.85, promoted one level (capped) when ≥ 0.60. -/
def effective_dir_of (max_weight : ℚ) (dir_level : FactorLevel) : FactorLevel :=
  if 85 / 100 ≤ max_weight then .good
  else if 60 / 100 ≤ max_weight then FACTOR_LEVELS (min (LEVEL_ORDER dir_level + 1) 2)
  else dir_level

/-- `_build_station_summary`, with the trigonometric
`_weighted_mean_bearing` passed in as `meanBear`. -/
def build_station_summary (meanBear : List ℚ → List ℚ → ℚ)
    (prox_level dir_level : FactorLevel) (max_weight : ℚ) (top_name : String)
    (bearings weights : List ℚ) : String :=
  let part1 :=
    if 85 / 100 ≤ max_weight then
      "Estimates are based almost entirely on the nearby " ++ top_name ++
        " station, so the data is highly representative of this location."
    else if prox_level = .good then
      "There are stations close to this location, giving a reliable estimate."
    else if prox_level = .fair then
      "The nearest stations are at a moderate distance. Estimates are reasonable but may not capture very local conditions."
    else
      "There are no nearby stations, so the estimates are computed from stations that are far away."
  let parts :=
    if max_weight < 85 / 100 ∧ (dir_level = .poor ∨ dir_level = .fair) then
      let direction_name := compass_direction (meanBear bearings weights)
      if dir_level = .poor then
        [part1, "These stations are all to the " ++ direction_name ++
          " of the location, so the estimate may not reflect conditions in other directions."]
      else
        [part1, "Most stations are to the " ++ direction_name ++
          ", which gives partial but not full surrounding coverage."]
    else [part1]
  String.intercalate " " parts

/-- `_build_data_summary`. -/
def build_data_summary (coverage_pct : ℚ) (coverage_level depth_level : FactorLevel) :
    String :=
  let p1 :=
    if coverage_pct = 100 then "Every time period has real observations."
    else if coverage_level = .good then
      "Nearly all time periods have observations, with a few small gaps filled in by estimates."
    else if coverage_level = .fair then
      "Some time periods are missing observations and have been filled in with estimates."
    else "There are significant gaps in the historical record."
  let p2 :=
    if depth_level = .good then
      "The data spans many years of consistent readings, giving reliable averages."
    else if depth_level = .fair then
      "The amount of data behind each average is moderate — enough to be useful, but not as precise as well-covered areas."
    else
      "The number of individual readings is low, so the averages may be less precise."
  p1 ++ " " ++ p2

/-- `_assess_dimension(points, resolution, station_data, lat, lng, obs_key)`.
The points enter only through `p.get(obs_key, 0)`, so they are passed as the
list of those observation counts. -/
def assess_dimension (bear : ℚ → ℚ → ℚ → ℚ → ℚ) (meanBear : List ℚ → List ℚ → ℚ)
    (cells : Cells) (obs_counts : List ℕ) (resolution : String)
    (station_data : List WEntry) (target_lat target_lng : ℚ) :
    DimResult × FactorLevel :=
  if station_data.isEmpty then (empty_dim cells, .poor)
  else
    let total_pts := obs_counts.length
    let coverage_val : ℚ :=
      if 0 < total_pts then
        round1 ((((obs_counts.filter (fun o => 0 < o)).length : ℚ) / total_pts) * 100)
      else 0
    let depth_val : ℚ :=
      if 0 < total_pts then
        round1 (((obs_counts.map
            (fun o => min ((o : ℚ) / (GOOD_OBS resolution : ℚ)) 1)).sum / total_pts) * 100)
      else 0
    let coverage_level := classify coverage_val COVERAGE_GOOD COVERAGE_FAIR true
    let depth_level := classify depth_val DEPTH_GOOD DEPTH_FAIR true
    let hd_level := min_level coverage_level depth_level
    let hd_val := round1 ((coverage_val + depth_val) / 2)
    let prox_val := prox_val_of station_data
    let prox_level := prox_level_of station_data
    let bearings := bearings_of bear target_lat target_lng station_data
    let dir_val := dir_val_of bearings
    let dir_level := dir_level_of bearings
    let max_weight := list_max (station_data.map (·.weight))
    let effective_dir := effective_dir_of max_weight dir_level
    let sc_level := min_level prox_level effective_dir
    let sc_val :=
      if effective_dir = .good ∧ ¬ dir_level = .good then prox_val
      else round1 ((prox_val + dir_val) / 2)
    let top_name := (list_argmax_weight station_data).station.name
    let weights := station_data.map (·.weight)
    let station_summary :=
      build_station_summary meanBear prox_level dir_level max_weight top_name bearings weights
    let data_summary := build_data_summary coverage_val coverage_level depth_level
    let dim_level := min_level hd_level sc_level
    (⟨⟨sc_val, sc_level, station_summary⟩, ⟨hd_val, hd_level, data_summary⟩⟩, dim_level)

/-- `compute_quality(cloud_points, lightning_points, resolution,
cloud_station_data, lightning_station_data, target_lat, target_lng)`.

State passing: `cells` is the pair of shared `_EMPTY_DIM` summary slots on
entry, and the second component of the result is their value after the call.
A call with no lightning stations overwrites them with the lightning
messages (through the shallow `dict(_EMPTY_DIM)` copy), and every dim of the
result that was built from `dict(_EMPTY_DIM)` shows those final values. -/
def compute_quality (bear : ℚ → ℚ → ℚ → ℚ → ℚ) (meanBear : List ℚ → List ℚ → ℚ)
    (cells : Cells) (cloud_obs lightning_obs : List ℕ) (resolution : String)
    (cloud_station_data lightning_station_data : List WEntry)
    (target_lat target_lng : ℚ) : QualityResult × Cells :=
  let cells' :=
    if lightning_station_data.isEmpty then
      ({ sc := "No nearby stations record lightning observations."
         hd := "No lightning data is available for this area." } : Cells)
    else cells
  let cloudR := assess_dimension bear meanBear cells' cloud_obs resolution
    cloud_station_data target_lat target_lng
  let lightningR :=
    if lightning_station_data.isEmpty then (empty_dim cells', FactorLevel.poor)
    else assess_dimension bear meanBear cells' lightning_obs resolution
      lightning_station_data target_lat target_lng
  let second := if lightning_station_data.isEmpty then FactorLevel.fair else lightningR.2
  let worst := min (LEVEL_ORDER cloudR.2) (LEVEL_ORDER second)
  (⟨LEVEL_MAP worst, cloudR.1, lightningR.1⟩, cells')

theorem le_foldl_max (x : ℚ) (xs : List ℚ) : x ≤ xs.foldl max x := by
  induction xs generalizing x with
  | nil => simp
  | cons y ys ih =>
      rw [List.foldl_cons]
      calc x ≤ max x y := le_max_left x y
      _ ≤ ys.foldl max (max x y) := ih (max x y)

theorem mem_le_foldl_max (x : ℚ) (xs : List ℚ) : ∀ w ∈ xs, w ≤ xs.foldl max x := by
  induction xs generalizing x with
  | nil => simp
  | cons y ys ih =>
      intro w hw
      rw [List.foldl_cons]
      rcases List.mem_cons.mp hw with rfl | hw'
      · calc w ≤ max x w := le_max_right _ _
        _ ≤ ys.foldl max (max x w) := le_foldl_max _ _
      · exact ih (max x y) w hw'

theorem foldl_max_mem (x : ℚ) (xs : List ℚ) : xs.foldl max x ∈ x :: xs := by
  induction xs generalizing x with
  | nil => simp
  | cons y ys ih =>
      rw [List.foldl_cons]
      rcases List.mem_cons.mp (ih (max x y)) with h | h
      · rw [h]
        rcases max_choice x y with hm | hm <;> rw [hm] <;> simp
      · simp [h]

theorem list_max_eq {l : List ℚ} {m : ℚ} (hmem : m ∈ l) (hmax : ∀ w ∈ l, w ≤ m) :
    list_max l = m := by
  cases l with
  | nil => simp at hmem
  | cons x xs =>
      unfold list_max
      apply le_antisymm
      · exact hmax _ (foldl_max_mem x xs)
      · rcases List.mem_cons.mp hmem with rfl | h
        · exact le_foldl_max _ _
        · exact mem_le_foldl_max x xs m h

/-- C6. The dominant-station override in `_assess_dimension`: with `m` the
maximal normalized weight, `m ≥ 0.85` makes the effective directional grade
good, `0.60 ≤ m < 0.85` promotes it one level capped at good; the
station-coverage level is the worse of proximity and effective direction,
its value the raw proximity score exactly when the override made a non-good
directional grade effective-good, else the average; and concretely, weights
0.95/0.05 at bearings 45°/55° (spread 10°) with nearby stations grade
station coverage good. -/
theorem C6_dominant_station_override
    (bear : ℚ → ℚ → ℚ → ℚ → ℚ) (meanBear : List ℚ → List ℚ → ℚ) (cells : Cells)
    (obs : List ℕ) (res : String) (sd : List WEntry) (lat lng : ℚ) (m : ℚ)
    (hsd : sd ≠ []) (hmem : m ∈ sd.map (·.weight))
    (hmax : ∀ w ∈ sd.map (·.weight), w ≤ m) :
    ((85 / 100 ≤ m →
        effective_dir_of m (dir_level_of (bearings_of bear lat lng sd)) = .good)
    ∧ (60 / 100 ≤ m ∧ m < 85 / 100 →
        effective_dir_of m (dir_level_of (bearings_of bear lat lng sd))
          = FACTOR_LEVELS
              (min (LEVEL_ORDER (dir_level_of (bearings_of bear lat lng sd)) + 1) 2))
    ∧ (assess_dimension bear meanBear cells obs res sd lat lng).1.station_coverage.level
        = min_level (prox_level_of sd)
            (effective_dir_of m (dir_level_of (bearings_of bear lat lng sd)))
    ∧ (assess_dimension bear meanBear cells obs res sd lat lng).1.station_coverage.value
        = (if effective_dir_of m (dir_level_of (bearings_of bear lat lng sd)) = .good
              ∧ ¬ dir_level_of (bearings_of bear lat lng sd) = .good
           then prox_val_of sd
           else round1 ((prox_val_of sd + dir_val_of (bearings_of bear lat lng sd)) / 2)))
    ∧ ((assess_dimension (fun _ _ slat _ => if slat = 1 then 45 else 55) meanBear cells obs
          "year"
          [⟨⟨"S1", "Dominant", 1, 0, 5⟩, 0, 95 / 100⟩, ⟨⟨"S2", "Minor", 2, 0, 20⟩, 0, 5 / 100⟩]
          0 0).1.station_coverage.level = .good
      ∧ angular_spread (bearings_of (fun _ _ slat _ => if slat = 1 then 45 else 55) 0 0
          [⟨⟨"S1", "Dominant", 1, 0, 5⟩, 0, 95 / 100⟩,
           ⟨⟨"S2", "Minor", 2, 0, 20⟩, 0, 5 / 100⟩]) = 10) := by
  have hne : ¬ (sd.isEmpty = true) := by
    simp [List.isEmpty_iff]
    exact hsd
  have hlm : list_max (sd.map (·.weight)) = m := list_max_eq hmem hmax
  refine ⟨⟨?_, ?_, ?_, ?_⟩, ?_, ?_⟩
  · intro h
    unfold effective_dir_of
    rw [if_pos h]
  · intro h
    unfold effective_dir_of
    rw [if_neg (not_le.mpr h.2), if_pos h.1]
  · unfold assess_dimension
    rw [if_neg hne]
    dsimp only
    rw [hlm]
  · unfold assess_dimension
    rw [if_neg hne]
    dsimp only
    rw [hlm]
  · unfold assess_dimension
    rw [if_neg (by simp)]
    dsimp only
    norm_num [min_level, prox_level_of, classify, avg_dist_of, PROX_GOOD_KM, PROX_FAIR_KM,
      effective_dir_of, list_max, LEVEL_ORDER, FACTOR_LEVELS, max_def]
  · norm_num [bearings_of, angular_spread, qmod360, List.insertionSort, List.orderedInsert,
      max_def, Int.floor_eq_zero_iff]
    rw [show ((10 : ℚ)) = (((10 : ℤ)) : ℚ) from by norm_num, round1_intCast]

/-- Witness for C6 at the concrete two-station dimension of the claim. -/
theorem C6_dominant_station_override_witness :
    effective_dir_of (95 / 100)
        (dir_level_of (bearings_of (fun _ _ slat _ => if slat = 1 then 45 else 55) 0 0
          [⟨⟨"S1", "Dominant", 1, 0, 5⟩, 0, 95 / 100⟩,
           ⟨⟨"S2", "Minor", 2, 0, 20⟩, 0, 5 / 100⟩])) = .good
    ∧ (assess_dimension (fun _ _ slat _ => if slat = 1 then 45 else 55) (fun _ _ => 0)
        INITIAL_CELLS [] "year"
        [⟨⟨"S1", "Dominant", 1, 0, 5⟩, 0, 95 / 100⟩, ⟨⟨"S2", "Minor", 2, 0, 20⟩, 0, 5 / 100⟩]
        0 0).1.station_coverage.level = .good := by
  have h := C6_dominant_station_override (fun _ _ slat _ => if slat = 1 then 45 else 55)
    (fun _ _ => 0) INITIAL_CELLS [] "year"
    [⟨⟨"S1", "Dominant", 1, 0, 5⟩, 0, 95 / 100⟩, ⟨⟨"S2", "Minor", 2, 0, 20⟩, 0, 5 / 100⟩]
    0 0 (95 / 100) (by simp) (by simp)
    (by
      intro w hw
      simp only [List.map_cons, List.map_nil, List.mem_cons, List.not_mem_nil, or_false] at hw
      rcases hw with rfl | rfl <;> norm_num)
  exact ⟨h.1.1 (by norm_num), h.2.1⟩

/-- C7. `compute_quality` is not pure: a call with no lightning stations
rewrites the shared `_EMPTY_DIM` summary slots (first conjunct), and a later
call with identical arguments then returns a different result (second
conjunct): its cloud dimension, built from `dict(_EMPTY_DIM)`, now carries
the lightning messages. -/
theorem C7_compute_quality_mutates_shared_state :
    ((compute_quality (fun _ _ _ _ => 0) (fun _ _ => 0) INITIAL_CELLS [] [] "year" [] [] 0 0).2
        ≠ INITIAL_CELLS)
    ∧ ((compute_quality (fun _ _ _ _ => 0) (fun _ _ => 0) INITIAL_CELLS [] [] "year" []
          [⟨⟨"W", "W", 0, 0, 5⟩, 1, 1⟩] 0 0).1
        ≠ (compute_quality (fun _ _ _ _ => 0) (fun _ _ => 0)
            ((compute_quality (fun _ _ _ _ => 0) (fun _ _ => 0) INITIAL_CELLS [] [] "year"
              [] [] 0 0).2) [] [] "year" [] [⟨⟨"W", "W", 0, 0, 5⟩, 1, 1⟩] 0 0).1) := by
  constructor
  · simp only [compute_quality, List.isEmpty_nil, if_true]
    decide
  · intro h
    have h2 := congrArg (fun r : QualityResult => r.cloud.station_coverage.summary) h
    simp only [compute_quality, assess_dimension, List.isEmpty_nil, List.isEmpty_cons,
      if_true, Bool.false_eq_true, if_false, empty_dim] at h2
    exact absurd h2 (by decide)

/-! ## `weather.py` — the dual-pipeline location engine (`get_location_weather`)

Effects are passed in as oracles: `nearby pid` is the result of
`get_nearby_stations(lat, lng, parameter_id=pid, count=10)`, and
`fetch sid res` is the `points` list of `get_station_weather_data(sid, res)`
(`none` when that call raises and `_fetch_station_data` drops the entry).
The CSV pre-download step only warms the disk cache and has no effect on the
returned value. -/

/-- `PARAM_CLOUD_COVERAGE = 16`. -/
def PARAM_CLOUD_COVERAGE : ℕ := 16

/-- `PARAM_PRESENT_WEATHER = 13`. -/
def PARAM_PRESENT_WEATHER : ℕ := 13

/-- `VALID_RESOLUTIONS = ("day", "month", "year")`. -/
def VALID_RESOLUTIONS : List String := ["day", "month", "year"]

/-- A selected station together with its fetched aggregated points
(`{**sd, "data": data}`; the pipeline reads only `data["points"]`). -/
structure SWithData where
  station : Station
  raw_weight : ℚ
  data : List Point

/-- A station entry after `_normalize_weights` (adds `weight`). -/
structure WData where
  station : Station
  raw_weight : ℚ
  weight : ℚ
  data : List Point

/-- `_fetch_station_data(selected, resolution)`: fetch each station's
aggregated data, dropping entries whose fetch raises. -/
def fetch_station_data (fetch : String → String → Option (List Point))
    (selected : List Selected) (resolution : String) : List SWithData :=
  selected.filterMap (fun sd =>
    (fetch sd.station.id resolution).map (fun pts => ⟨sd.station, sd.raw_weight, pts⟩))

/-- `_normalize_weights`: `weight = raw_weight / sum(raw_weight)`. -/
def normalize_weights (l : List SWithData) : List WData :=
  let total := (l.map (·.raw_weight)).sum
  l.map (fun sd => ⟨sd.station, sd.raw_weight, sd.raw_weight / total, sd.data⟩)

/-- `_blend_fixed_cloud`: positional blending for day/month resolutions.
All fixed-resolution station results have point lists of one common length,
so Python's `points[idx]` is modelled with a total `getD`. -/
noncomputable def blend_fixed_cloud (station_data : List WData) : List CloudBlendPoint :=
  match station_data with
  | [] => []
  | hd :: _ =>
    (List.range hd.data.length).map (fun idx =>
      blend_cloud_point ((hd.data.getD idx default).label)
        (station_data.map (fun sd => (sd.weight, sd.data.getD idx default))))

/-- `_blend_fixed_lightning`. -/
noncomputable def blend_fixed_lightning (station_data : List WData) :
    List LightningBlendPoint :=
  match station_data with
  | [] => []
  | hd :: _ =>
    (List.range hd.data.length).map (fun idx =>
      blend_lightning_point ((hd.data.getD idx default).label)
        (station_data.map (fun sd => (sd.weight, sd.data.getD idx default))))

/-- The sorted label union of `_blend_yearly_*` (the keys of `all_labels`,
sorted; a per-station label lookup keeps the last point with a label, like
the Python dict comprehension). -/
def yearly_labels (station_data : List WData) : List String :=
  List.insertionSort (fun a b : String => a ≤ b)
    ((station_data.flatMap (fun sd => sd.data.map (·.label))).dedup)

/-- `_blend_yearly_cloud`: blend by label over the stations that have a
point with that label. -/
noncomputable def blend_yearly_cloud (station_data : List WData) :
    List CloudBlendPoint :=
  (yearly_labels station_data).map (fun label =>
    blend_cloud_point label
      (station_data.filterMap (fun sd =>
        (sd.data.reverse.find? (fun pt => pt.label == label)).map (fun pt => (sd.weight, pt)))))

/-- `_blend_yearly_lightning`. -/
noncomputable def blend_yearly_lightning (station_data : List WData) :
    List LightningBlendPoint :=
  (yearly_labels station_data).map (fun label =>
    blend_lightning_point label
      (station_data.filterMap (fun sd =>
        (sd.data.reverse.find? (fun pt => pt.label == label)).map (fun pt => (sd.weight, pt)))))

/-- A merged output point (`_merge_points`). -/
structure MergedPoint where
  label : String
  cloud_coverage_avg : Option ℝ
  lightning_probability : Option ℝ
  lightning_lower : Option ℝ
  lightning_upper : Option ℝ
  obs_count : ℕ

/-- `_merge_points(cloud_points, lightning_points)`: cloud points are the
primary axis; lightning values are joined by label (last point with a label
wins, like the Python dict build), nulls when absent. -/
def merge_points (cloud_points : List CloudBlendPoint)
    (lightning_points : List LightningBlendPoint) : List MergedPoint :=
  cloud_points.map (fun cp =>
    match lightning_points.reverse.find? (fun p => p.label == cp.label) with
    | some lp => ⟨cp.label, cp.cloud_coverage_avg, lp.lightning_probability,
        lp.lightning_lower, lp.lightning_upper, cp.obs_count⟩
    | none => ⟨cp.label, cp.cloud_coverage_avg, none, none, none, cp.obs_count⟩)

/-- A station info entry of the response (`_stations_info`). -/
structure StationInfo where
  id : String
  name : String
  latitude : ℚ
  longitude : ℚ
  distance_km : ℚ
  weight_pct : ℚ
deriving DecidableEq

/-- `_stations_info(station_data)`. -/
def stations_info (station_data : List WData) : List StationInfo :=
  station_data.map (fun sd =>
    ⟨sd.station.id, sd.station.name, sd.station.latitude, sd.station.longitude,
     sd.station.distance_km, round1 (sd.weight * 100)⟩)

/-- The response shape of `get_location_weather`. -/
structure LocationResult where
  has_lightning_data : Bool
  resolution : String
  points : List MergedPoint
  cloud_stations : List StationInfo
  lightning_stations : List StationInfo
  quality : QualityResult

/-- `dict(EMPTY_QUALITY)`: level low, both dims aliasing the shared
`_EMPTY_DIM` cells. -/
def empty_quality (cells : Cells) : QualityResult :=
  ⟨.low, empty_dim cells, empty_dim cells⟩

/-- `get_location_weather(lat, lng, resolution)`, state-passing in the
shared `_EMPTY_DIM` summary cells (see `compute_quality`). -/
noncomputable def get_location_weather (bear : ℚ → ℚ → ℚ → ℚ → ℚ)
    (meanBear : List ℚ → List ℚ → ℚ) (nearby : ℕ → List Station)
    (fetch : String → String → Option (List Point)) (cells : Cells)
    (lat lng : ℚ) (resolution : String) : LocationResult × Cells :=
  let res := if resolution ∈ VALID_RESOLUTIONS then resolution else "month"
  let cloud_nearby := nearby PARAM_CLOUD_COVERAGE
  let lightning_nearby := nearby PARAM_PRESENT_WEATHER
  if cloud_nearby.isEmpty then
    (⟨false, res, [], [], [], empty_quality cells⟩, cells)
  else
    let cloud_selected := select_stations cloud_nearby
    let lightning_selected :=
      if lightning_nearby.isEmpty then [] else select_stations lightning_nearby
    let cloud_data := fetch_station_data fetch cloud_selected res
    let lightning_data := fetch_station_data fetch lightning_selected res
    if cloud_data.isEmpty then
      (⟨false, res, [], [], [], empty_quality cells⟩, cells)
    else
      let cloud_dataN := normalize_weights cloud_data
      let lightning_dataN := normalize_weights lightning_data
      let has_lightning := ! lightning_data.isEmpty
      let cloud_points :=
        if res = "year" then blend_yearly_cloud cloud_dataN
        else blend_fixed_cloud cloud_dataN
      let lightning_points :=
        if res = "year" then
          if lightning_data.isEmpty then [] else blend_yearly_lightning lightning_dataN
        else
          if lightning_data.isEmpty then [] else blend_fixed_lightning lightning_dataN
      let points := merge_points cloud_points lightning_points
      let cloud_yearly_points :=
        if res = "year" then cloud_points
        else
          let cyd := fetch_station_data fetch cloud_selected "year"
          if cyd.isEmpty then [] else blend_yearly_cloud (normalize_weights cyd)
      let lightning_yearly_points :=
        if res = "year" then lightning_points
        else
          if lightning_data.isEmpty then []
          else
            let lyd := fetch_station_data fetch lightning_selected "year"
            if lyd.isEmpty then [] else blend_yearly_lightning (normalize_weights lyd)
      let q := compute_quality bear meanBear cells
        (cloud_yearly_points.map (·.obs_count))
        (lightning_yearly_points.map (·.lightning_obs_count))
        "year"
        (cloud_dataN.map (fun sd => ⟨sd.station, sd.raw_weight, sd.weight⟩))
        (lightning_dataN.map (fun sd => ⟨sd.station, sd.raw_weight, sd.weight⟩))
        lat lng
      (⟨has_lightning, res, points, stations_info cloud_dataN,
        stations_info lightning_dataN, q.1⟩, q.2)

theorem assess_dimension_level (bear : ℚ → ℚ → ℚ → ℚ → ℚ)
    (meanBear : List ℚ → List ℚ → ℚ) (cells : Cells) (obs : List ℕ) (res : String)
    (sd : List WEntry) (lat lng : ℚ) :
    (assess_dimension bear meanBear cells obs res sd lat lng).2
      = min_level (assess_dimension bear meanBear cells obs res sd lat lng).1.historical_data.level
          (assess_dimension bear meanBear cells obs res sd lat lng).1.station_coverage.level := by
  unfold assess_dimension
  split_ifs with h
  · rfl
  · rfl

theorem merge_points_no_lightning (cps : List CloudBlendPoint) :
    ∀ p ∈ merge_points cps [], p.lightning_probability = none
      ∧ p.lightning_lower = none ∧ p.lightning_upper = none := by
  intro p hp
  unfold merge_points at hp
  obtain ⟨cp, _, rfl⟩ := List.mem_map.mp hp
  exact ⟨rfl, rfl, rfl⟩

theorem overall_cap_characterization (m : FactorLevel) :
    LEVEL_MAP (min (LEVEL_ORDER m) 1) ≠ .high
    ∧ (LEVEL_MAP (min (LEVEL_ORDER m) 1) = .medium ↔ ¬ m = .poor)
    ∧ (LEVEL_MAP (min (LEVEL_ORDER m) 1) = .low ↔ m = .poor) := by
  cases m <;> exact ⟨by decide, by decide, by decide⟩

theorem compute_quality_empty_lightning (bear : ℚ → ℚ → ℚ → ℚ → ℚ)
    (meanBear : List ℚ → List ℚ → ℚ) (cells : Cells) (cobs lobs : List ℕ)
    (res : String) (csd : List WEntry) (lat lng : ℚ) :
    (compute_quality bear meanBear cells cobs lobs res csd [] lat lng).1.level ≠ .high
    ∧ ((compute_quality bear meanBear cells cobs lobs res csd [] lat lng).1.level = .medium
        ↔ ¬ min_level
            (compute_quality bear meanBear cells cobs lobs res csd [] lat lng).1.cloud.historical_data.level
            (compute_quality bear meanBear cells cobs lobs res csd [] lat lng).1.cloud.station_coverage.level
          = .poor)
    ∧ ((compute_quality bear meanBear cells cobs lobs res csd [] lat lng).1.level = .low
        ↔ min_level
            (compute_quality bear meanBear cells cobs lobs res csd [] lat lng).1.cloud.historical_data.level
            (compute_quality bear meanBear cells cobs lobs res csd [] lat lng).1.cloud.station_coverage.level
          = .poor) := by
  have heq : (compute_quality bear meanBear cells cobs lobs res csd [] lat lng).1.level
      = LEVEL_MAP (min (LEVEL_ORDER (min_level
          (compute_quality bear meanBear cells cobs lobs res csd [] lat lng).1.cloud.historical_data.level
          (compute_quality bear meanBear cells cobs lobs res csd [] lat lng).1.cloud.station_coverage.level)) 1) := by
    unfold compute_quality
    simp only [List.isEmpty_nil, if_true]
    rw [assess_dimension_level]
    rfl
  rw [heq]
  exact overall_cap_characterization _

/-- C5. When the cloud pipeline yields data but the lightning selection is
empty: no lightning flag, no lightning stations, all lightning fields null,
and the overall quality is capped at medium — medium exactly when the cloud
dimension grades fair or good, low exactly when it grades poor. -/
theorem C5_empty_lightning_selection
    (bear : ℚ → ℚ → ℚ → ℚ → ℚ) (meanBear : List ℚ → List ℚ → ℚ)
    (nearby : ℕ → List Station) (fetch : String → String → Option (List Point))
    (cells : Cells) (lat lng : ℚ) (resolution : String)
    (hnear : (nearby PARAM_CLOUD_COVERAGE).isEmpty = false)
    (hsel : (if (nearby PARAM_PRESENT_WEATHER).isEmpty then ([] : List Selected)
             else select_stations (nearby PARAM_PRESENT_WEATHER)) = [])
    (hdata : (fetch_station_data fetch (select_stations (nearby PARAM_CLOUD_COVERAGE))
        (if resolution ∈ VALID_RESOLUTIONS then resolution else "month")).isEmpty = false) :
    (get_location_weather bear meanBear nearby fetch cells lat lng
        resolution).1.has_lightning_data = false
    ∧ (get_location_weather bear meanBear nearby fetch cells lat lng
        resolution).1.lightning_stations = []
    ∧ (∀ p ∈ (get_location_weather bear meanBear nearby fetch cells lat lng
        resolution).1.points,
        p.lightning_probability = none ∧ p.lightning_lower = none ∧ p.lightning_upper = none)
    ∧ (get_location_weather bear meanBear nearby fetch cells lat lng
        resolution).1.quality.level ≠ .high
    ∧ ((get_location_weather bear meanBear nearby fetch cells lat lng
        resolution).1.quality.level = .medium
      ↔ ¬ min_level
          (get_location_weather bear meanBear nearby fetch cells lat lng
            resolution).1.quality.cloud.historical_data.level
          (get_location_weather bear meanBear nearby fetch cells lat lng
            resolution).1.quality.cloud.station_coverage.level = .poor)
    ∧ ((get_location_weather bear meanBear nearby fetch cells lat lng
        resolution).1.quality.level = .low
      ↔ min_level
          (get_location_weather bear meanBear nearby fetch cells lat lng
            resolution).1.quality.cloud.historical_data.level
          (get_location_weather bear meanBear nearby fetch cells lat lng
            resolution).1.quality.cloud.station_coverage.level = .poor) := by
  have hset : fetch_station_data fetch
      (if (nearby PARAM_PRESENT_WEATHER).isEmpty then ([] : List Selected)
       else select_stations (nearby PARAM_PRESENT_WEATHER))
      (if resolution ∈ VALID_RESOLUTIONS then resolution else "month") = [] := by
    rw [hsel]
    rfl
  unfold get_location_weather
  simp only [hnear, Bool.false_eq_true, if_false, hset, List.isEmpty_nil, if_true,
    Bool.not_true, hdata, ite_self]
  refine ⟨trivial, ?_, ?_, ?_, ?_, ?_⟩
  · simp [stations_info, normalize_weights]
  · exact merge_points_no_lightning _
  · simp only [normalize_weights, List.map_nil]
    exact (compute_quality_empty_lightning _ _ _ _ _ _ _ _ _).1
  · simp only [normalize_weights, List.map_nil]
    exact (compute_quality_empty_lightning _ _ _ _ _ _ _ _ _).2.1
  · simp only [normalize_weights, List.map_nil]
    exact (compute_quality_empty_lightning _ _ _ _ _ _ _ _ _).2.2

/-- Witness for C5: one nearby cloud-only station, no present-weather
stations at all. -/
theorem C5_empty_lightning_selection_witness :
    (get_location_weather (fun _ _ _ _ => 0) (fun _ _ => 0)
        (fun pid => if pid = PARAM_CLOUD_COVERAGE then [⟨"C1", "C", 0, 0, 5⟩] else [])
        (fun _ _ => some []) INITIAL_CELLS 0 0 "month").1.has_lightning_data = false
    ∧ (get_location_weather (fun _ _ _ _ => 0) (fun _ _ => 0)
        (fun pid => if pid = PARAM_CLOUD_COVERAGE then [⟨"C1", "C", 0, 0, 5⟩] else [])
        (fun _ _ => some []) INITIAL_CELLS 0 0 "month").1.lightning_stations = []
    ∧ (get_location_weather (fun _ _ _ _ => 0) (fun _ _ => 0)
        (fun pid => if pid = PARAM_CLOUD_COVERAGE then [⟨"C1", "C", 0, 0, 5⟩] else [])
        (fun _ _ => some []) INITIAL_CELLS 0 0 "month").1.quality.level ≠ .high := by
  have h := C5_empty_lightning_selection (fun _ _ _ _ => 0) (fun _ _ => 0)
    (fun pid => if pid = PARAM_CLOUD_COVERAGE then [⟨"C1", "C", 0, 0, 5⟩] else [])
    (fun _ _ => some []) INITIAL_CELLS 0 0 "month"
    (by simp)
    (by norm_num [PARAM_PRESENT_WEATHER, PARAM_CLOUD_COVERAGE])
    (by
      norm_num [select_stations, select_go, fetch_station_data, MIN_STATIONS]
      exact Option.some_ne_none _)
  exact ⟨h.1, h.2.1, h.2.2.2.1⟩

/-! ## `stations.py` — `get_all_stations` (merged roster listing)

The emitted station dicts are modelled as association lists from literal key
strings to values, so that the exact field names of the JSON output are part
of the model (`has_weather_data` in the source).  Python dict insertion and
iteration-order semantics are modelled by `dict_set` (replace in place, or
append).  Python's string comparison for `sort(key=name)` is codepoint
lexicographic; `str_le` below is that order. -/

/-- A JSON-ish value of a station dict. -/
inductive JVal where
  | str (s : String)
  | num (q : ℚ)
  | bool (b : Bool)
deriving DecidableEq

/-- A station as it appears in an upstream roster
(`{key, name, latitude, longitude, active}`; a missing `active` is falsy and
modelled as `false`). -/
structure RawStation where
  key : String
  name : String
  latitude : ℚ
  longitude : ℚ
  active : Bool
deriving DecidableEq

/-- Python `d[k] = v` on an insertion-ordered dict: replace the value at an
existing key in place, otherwise append. -/
def dict_set {α : Type} (m : List (String × α)) (k : String) (v : α) :
    List (String × α) :=
  if (List.lookup k m).isSome then m.map (fun p => if p.1 = k then (k, v) else p)
  else m ++ [(k, v)]

/-- The inner `{id, name, latitude, longitude}` dict built per station. -/
def info_of (s : RawStation) : List (String × JVal) :=
  [("id", .str s.key), ("name", .str s.name),
   ("latitude", .num s.latitude), ("longitude", .num s.longitude)]

/-- `{s["key"] for s in raw if s.get("active")}`, as a list in roster order. -/
def active_keys (raw : List RawStation) : List String :=
  (raw.filter (·.active)).map (·.key)

/-- The first loop of `get_all_stations` (`merged[s["key"]] = {...}` for the
active cloud stations). -/
def merged_cloud_pass (cloud_raw : List RawStation)
    (m : List (String × List (String × JVal))) :
    List (String × List (String × JVal)) :=
  cloud_raw.foldl (fun m s => if s.active then dict_set m s.key (info_of s) else m) m

/-- The second loop (`if s["key"] not in merged: merged[...] = {...}` for the
active weather stations). -/
def merged_weather_pass (weather_raw : List RawStation)
    (m : List (String × List (String × JVal))) :
    List (String × List (String × JVal)) :=
  weather_raw.foldl (fun m s =>
    if s.active then
      (if (List.lookup s.key m).isSome then m else m ++ [(s.key, info_of s)])
    else m) m

/-- Codepoint-lexicographic `≤` on character lists (Python string order). -/
def chars_le : List Char → List Char → Bool
  | [], _ => true
  | _ :: _, [] => false
  | a :: as, b :: bs =>
    if a.toNat < b.toNat then true
    else if b.toNat < a.toNat then false
    else chars_le as bs

/-- Codepoint-lexicographic `≤` on strings. -/
def str_le (a b : String) : Bool := chars_le a.data b.data

/-- `info["id"]` of an emitted entry. -/
def entry_id (e : List (String × JVal)) : String :=
  match List.lookup "id" e with
  | some (.str s) => s
  | _ => ""

/-- `s["name"]` of an emitted entry (the sort key). -/
def entry_name (e : List (String × JVal)) : String :=
  match List.lookup "name" e with
  | some (.str s) => s
  | _ => ""

/-- `get_all_stations()` from `stations.py`, over the two fetched rosters:
merge active stations by key (cloud first), attach the
`has_cloud_data` / `has_weather_data` booleans, sort by name ascending. -/
def get_all_stations (cloud_raw weather_raw : List RawStation) :
    List (List (String × JVal)) :=
  let merged := merged_weather_pass weather_raw (merged_cloud_pass cloud_raw [])
  let stations := merged.map (fun kv =>
    kv.2 ++ [("has_cloud_data", JVal.bool (decide (entry_id kv.2 ∈ active_keys cloud_raw))),
             ("has_weather_data", JVal.bool (decide (entry_id kv.2 ∈ active_keys weather_raw)))])
  List.insertionSort (fun a b => str_le (entry_name a) (entry_name b) = true) stations

/-- The keys of an association list, in order. -/
def keysOf {α : Type} (m : List (String × α)) : List String := m.map Prod.fst

theorem lookup_isSome_iff {α : Type} (k : String) (m : List (String × α)) :
    (List.lookup k m).isSome = true ↔ k ∈ keysOf m := by
  induction m with
  | nil => simp [keysOf]
  | cons p m ih =>
      obtain ⟨a, b⟩ := p
      by_cases hk : k = a
      · subst hk
        simp [List.lookup, keysOf]
      · have hb : (k == a) = false := beq_eq_false_iff_ne.mpr hk
        simp [List.lookup, hb, keysOf, hk, ih]

theorem mem_dict_set {α : Type} {m : List (String × α)} {k : String} {v : α}
    {kv : String × α} (h : kv ∈ dict_set m k v) : kv ∈ m ∨ kv = (k, v) := by
  unfold dict_set at h
  split_ifs at h with hs
  · obtain ⟨p, hp, heq⟩ := List.mem_map.mp h
    by_cases hpk : p.1 = k
    · right
      rw [if_pos hpk] at heq
      exact heq.symm
    · left
      rw [if_neg hpk] at heq
      exact heq ▸ hp
  · rcases List.mem_append.mp h with h | h
    · exact Or.inl h
    · right
      simpa using h

theorem keysOf_dict_set {α : Type} (m : List (String × α)) (k : String) (v : α) :
    keysOf (dict_set m k v)
      = if (List.lookup k m).isSome then keysOf m else keysOf m ++ [k] := by
  unfold dict_set
  split_ifs with hs
  · unfold keysOf
    rw [List.map_map]
    apply List.map_congr_left
    intro p _
    by_cases hpk : p.1 = k
    · simp [Function.comp_apply, hpk]
    · simp [Function.comp_apply, hpk]
  · simp [keysOf]

theorem nodup_keysOf_dict_set {α : Type} {m : List (String × α)} {k : String} {v : α}
    (h : (keysOf m).Nodup) : (keysOf (dict_set m k v)).Nodup := by
  rw [keysOf_dict_set]
  split_ifs with hs
  · exact h
  · have hk : k ∉ keysOf m := fun hmem => hs ((lookup_isSome_iff k m).mpr hmem)
    simp [List.nodup_append, h, hk]

theorem mem_keysOf_dict_set {α : Type} {m : List (String × α)} {k a : String} {v : α} :
    a ∈ keysOf (dict_set m k v) ↔ a ∈ keysOf m ∨ a = k := by
  rw [keysOf_dict_set]
  split_ifs with hs
  · constructor
    · exact Or.inl
    · rintro (h | rfl)
      · exact h
      · exact (lookup_isSome_iff a m).mp hs
  · simp [List.mem_append]

/-- The shape of every value stored in the merged dict: the info dict of
some raw station, keyed by that station's key. -/
def good_kv (kv : String × List (String × JVal)) : Prop :=
  ∃ s : RawStation, kv.2 = info_of s ∧ s.key = kv.1

theorem merged_cloud_pass_props (cloud_raw : List RawStation) :
    ∀ (m : List (String × List (String × JVal))),
      (keysOf m).Nodup → (∀ kv ∈ m, good_kv kv) →
      ((keysOf (merged_cloud_pass cloud_raw m)).Nodup
       ∧ (∀ kv ∈ merged_cloud_pass cloud_raw m, good_kv kv)
       ∧ (∀ k, k ∈ keysOf (merged_cloud_pass cloud_raw m)
            ↔ k ∈ keysOf m ∨ k ∈ active_keys cloud_raw)) := by
  induction cloud_raw with
  | nil =>
      intro m h1 h2
      refine ⟨h1, h2, ?_⟩
      simp [merged_cloud_pass, active_keys]
  | cons s raw ih =>
      intro m h1 h2
      by_cases ha : s.active
      · have step : merged_cloud_pass (s :: raw) m
            = merged_cloud_pass raw (dict_set m s.key (info_of s)) := by
          simp [merged_cloud_pass, List.foldl_cons, ha]
        rw [step]
        have h1' : (keysOf (dict_set m s.key (info_of s))).Nodup := nodup_keysOf_dict_set h1
        have h2' : ∀ kv ∈ dict_set m s.key (info_of s), good_kv kv := by
          intro kv hkv
          rcases mem_dict_set hkv with h | rfl
          · exact h2 kv h
          · exact ⟨s, rfl, rfl⟩
        obtain ⟨g1, g2, g3⟩ := ih _ h1' h2'
        refine ⟨g1, g2, ?_⟩
        intro k
        rw [g3 k]
        have hak : active_keys (s :: raw) = s.key :: active_keys raw := by
          simp [active_keys, List.filter_cons, ha]
        rw [hak, mem_keysOf_dict_set]
        simp only [List.mem_cons]
        tauto
      · have step : merged_cloud_pass (s :: raw) m = merged_cloud_pass raw m := by
          simp [merged_cloud_pass, List.foldl_cons, ha]
        rw [step]
        obtain ⟨g1, g2, g3⟩ := ih m h1 h2
        refine ⟨g1, g2, ?_⟩
        intro k
        rw [g3 k]
        have hak : active_keys (s :: raw) = active_keys raw := by
          simp [active_keys, List.filter_cons, ha]
        rw [hak]

theorem merged_weather_pass_props (weather_raw : List RawStation) :
    ∀ (m : List (String × List (String × JVal))),
      (keysOf m).Nodup → (∀ kv ∈ m, good_kv kv) →
      ((keysOf (merged_weather_pass weather_raw m)).Nodup
       ∧ (∀ kv ∈ merged_weather_pass weather_raw m, good_kv kv)
       ∧ (∀ k, k ∈ keysOf (merged_weather_pass weather_raw m)
            ↔ k ∈ keysOf m ∨ k ∈ active_keys weather_raw)) := by
  induction weather_raw with
  | nil =>
      intro m h1 h2
      refine ⟨h1, h2, ?_⟩
      simp [merged_weather_pass, active_keys]
  | cons s raw ih =>
      intro m h1 h2
      by_cases ha : s.active
      · by_cases hs : (List.lookup s.key m).isSome
        · have step : merged_weather_pass (s :: raw) m = merged_weather_pass raw m := by
            simp [merged_weather_pass, List.foldl_cons, ha, hs]
          rw [step]
          obtain ⟨g1, g2, g3⟩ := ih m h1 h2
          refine ⟨g1, g2, ?_⟩
          intro k
          rw [g3 k]
          have hmem : s.key ∈ keysOf m := (lookup_isSome_iff s.key m).mp hs
          have hak : active_keys (s :: raw) = s.key :: active_keys raw := by
            simp [active_keys, List.filter_cons, ha]
          rw [hak]
          simp only [List.mem_cons]
          constructor
          · rintro (h | h)
            · exact Or.inl h
            · exact Or.inr (Or.inr h)
          · rintro (h | rfl | h)
            · exact Or.inl h
            · exact Or.inl hmem
            · exact Or.inr h
        · have step : merged_weather_pass (s :: raw) m
              = merged_weather_pass raw (m ++ [(s.key, info_of s)]) := by
            simp [merged_weather_pass, List.foldl_cons, ha, hs]
          rw [step]
          have hfresh : s.key ∉ keysOf m := fun hmem =>
            hs ((lookup_isSome_iff s.key m).mpr hmem)
          have h1' : (keysOf (m ++ [(s.key, info_of s)])).Nodup := by
            unfold keysOf at h1 hfresh ⊢
            rw [List.map_append, List.nodup_append]
            refine ⟨h1, by simp, ?_⟩
            intro a ha hb
            simp only [List.map_cons, List.map_nil, List.mem_singleton] at hb
            subst hb
            exact hfresh ha
          have h2' : ∀ kv ∈ m ++ [(s.key, info_of s)], good_kv kv := by
            intro kv hkv
            rcases List.mem_append.mp hkv with h | h
            · exact h2 kv h
            · have : kv = (s.key, info_of s) := by simpa using h
              exact this ▸ ⟨s, rfl, rfl⟩
          obtain ⟨g1, g2, g3⟩ := ih _ h1' h2'
          refine ⟨g1, g2, ?_⟩
          intro k
          rw [g3 k]
          have hak : active_keys (s :: raw) = s.key :: active_keys raw := by
            simp [active_keys, List.filter_cons, ha]
          rw [hak]
          unfold keysOf
          rw [List.map_append]
          simp only [List.mem_append, List.map_cons, List.map_nil, List.mem_singleton,
            List.mem_cons, keysOf]
          tauto
      · have step : merged_weather_pass (s :: raw) m = merged_weather_pass raw m := by
          simp [merged_weather_pass, List.foldl_cons, ha]
        rw [step]
        obtain ⟨g1, g2, g3⟩ := ih m h1 h2
        refine ⟨g1, g2, ?_⟩
        intro k
        rw [g3 k]
        have hak : active_keys (s :: raw) = active_keys raw := by
          simp [active_keys, List.filter_cons, ha]
        rw [hak]

theorem chars_le_total : ∀ (a b : List Char), chars_le a b = true ∨ chars_le b a = true := by
  intro a
  induction a with
  | nil =>
      intro b
      left
      rfl
  | cons x as ih =>
      intro b
      cases b with
      | nil =>
          right
          rfl
      | cons y bs =>
          by_cases h1 : x.toNat < y.toNat
          · left
            simp [chars_le, h1]
          · by_cases h2 : y.toNat < x.toNat
            · right
              simp [chars_le, h2]
            · rcases ih bs with h | h
              · left
                simp [chars_le, h1, h2, h]
              · right
                simp [chars_le, h1, h2, h]

theorem chars_le_trans : ∀ (a b c : List Char),
    chars_le a b = true → chars_le b c = true → chars_le a c = true := by
  intro a
  induction a with
  | nil =>
      intro b c _ _
      rfl
  | cons x as ih =>
      intro b c hab hbc
      cases b with
      | nil => simp [chars_le] at hab
      | cons y bs =>
          cases c with
          | nil => simp [chars_le] at hbc
          | cons z cs =>
              simp only [chars_le] at hab hbc ⊢
              by_cases hxy : x.toNat < y.toNat
              · by_cases hyz : y.toNat < z.toNat
                · have hxz : x.toNat < z.toNat := lt_trans hxy hyz
                  simp [hxz]
                · by_cases hzy : z.toNat < y.toNat
                  · simp [hyz, hzy] at hbc
                  · have hxz : x.toNat < z.toNat := by omega
                    simp [hxz]
              · by_cases hyx : y.toNat < x.toNat
                · simp [hxy, hyx] at hab
                · have hab' : chars_le as bs = true := by simpa [hxy, hyx] using hab
                  by_cases hyz : y.toNat < z.toNat
                  · have hxz : x.toNat < z.toNat := by omega
                    simp [hxz]
                  · by_cases hzy : z.toNat < y.toNat
                    · simp [hyz, hzy] at hbc
                    · have hbc' : chars_le bs cs = true := by simpa [hyz, hzy] using hbc
                      have hxz : ¬ x.toNat < z.toNat := by omega
                      have hzx : ¬ z.toNat < x.toNat := by omega
                      simp [hxz, hzx, ih bs cs hab' hbc']

/-- Counterexample to C9 as stated: the entries emitted by
`get_all_stations` carry no `has_lightning_data` field at all (the source
names the flag `has_weather_data`), already for one active cloud station and
one active weather station. -/
theorem C9_get_all_stations_counterexample :
    ¬ (∀ e ∈ get_all_stations [⟨"C1", "Alpha", 1, 2, true⟩] [⟨"W1", "Beta", 3, 4, true⟩],
        (List.lookup "has_lightning_data" e).isSome = true) := by
  decide

/-- C9 (amended). `get_all_stations` outputs every active station from
either roster exactly once (deduplicated by id), sorted by name ascending,
with boolean fields `has_cloud_data` and `has_weather_data` — not
`has_lightning_data` — true exactly when the station is active in the
respective roster. -/
theorem C9_get_all_stations_amended (cloud_raw weather_raw : List RawStation) :
    ((get_all_stations cloud_raw weather_raw).map entry_id).Nodup
    ∧ (∀ k, k ∈ (get_all_stations cloud_raw weather_raw).map entry_id
        ↔ (k ∈ active_keys cloud_raw ∨ k ∈ active_keys weather_raw))
    ∧ (∀ e ∈ get_all_stations cloud_raw weather_raw,
        List.lookup "has_cloud_data" e
            = some (.bool (decide (entry_id e ∈ active_keys cloud_raw)))
        ∧ List.lookup "has_weather_data" e
            = some (.bool (decide (entry_id e ∈ active_keys weather_raw)))
        ∧ List.lookup "has_lightning_data" e = none)
    ∧ List.Sorted (fun a b => str_le (entry_name a) (entry_name b) = true)
        (get_all_stations cloud_raw weather_raw) := by
  obtain ⟨hnd0, hgood0, hmem0⟩ := merged_cloud_pass_props cloud_raw []
    (by simp [keysOf]) (by simp)
  obtain ⟨hnd, hgood, hmem⟩ := merged_weather_pass_props weather_raw _ hnd0 hgood0
  have key : ∀ kv, good_kv kv →
      entry_id (kv.2
          ++ [("has_cloud_data", JVal.bool (decide (entry_id kv.2 ∈ active_keys cloud_raw))),
              ("has_weather_data",
                JVal.bool (decide (entry_id kv.2 ∈ active_keys weather_raw)))]) = kv.1 := by
    rintro kv ⟨s, hs, hk⟩
    rw [hs, ← hk]
    rfl
  have hmapid :
      ((merged_weather_pass weather_raw (merged_cloud_pass cloud_raw [])).map (fun kv =>
        kv.2
          ++ [("has_cloud_data", JVal.bool (decide (entry_id kv.2 ∈ active_keys cloud_raw))),
              ("has_weather_data",
                JVal.bool (decide (entry_id kv.2 ∈ active_keys weather_raw)))])).map entry_id
        = keysOf (merged_weather_pass weather_raw (merged_cloud_pass cloud_raw [])) := by
    rw [List.map_map]
    apply List.map_congr_left
    intro kv hkv
    exact key kv (hgood kv hkv)
  unfold get_all_stations
  have hperm := List.perm_insertionSort
    (fun a b => str_le (entry_name a) (entry_name b) = true)
    ((merged_weather_pass weather_raw (merged_cloud_pass cloud_raw [])).map (fun kv =>
      kv.2
        ++ [("has_cloud_data", JVal.bool (decide (entry_id kv.2 ∈ active_keys cloud_raw))),
            ("has_weather_data",
              JVal.bool (decide (entry_id kv.2 ∈ active_keys weather_raw)))]))
  refine ⟨?_, ?_, ?_, ?_⟩
  · exact ((hperm.map entry_id).nodup_iff).mpr (hmapid ▸ hnd)
  · intro k
    rw [(hperm.map entry_id).mem_iff, hmapid, hmem k, hmem0 k]
    simp [keysOf]
  · intro e he
    rw [List.mem_insertionSort] at he
    obtain ⟨kv, hkv, rfl⟩ := List.mem_map.mp he
    obtain ⟨s, hs, hk⟩ := hgood kv hkv
    rw [hs]
    exact ⟨rfl, rfl, rfl⟩
  · letI : IsTotal (List (String × JVal))
        (fun a b => str_le (entry_name a) (entry_name b) = true) :=
      ⟨fun a b => chars_le_total _ _⟩
    letI : IsTrans (List (String × JVal))
        (fun a b => str_le (entry_name a) (entry_name b) = true) :=
      ⟨fun a b c => chars_le_trans _ _ _⟩
    exact List.sorted_insertionSort _ _

/-- Witness for C9 (amended) at a one-station-per-roster input. -/
theorem C9_get_all_stations_amended_witness :
    ((get_all_stations [⟨"C1", "Alpha", 1, 2, true⟩]
        [⟨"W1", "Beta", 3, 4, true⟩]).map entry_id).Nodup
    ∧ "C1" ∈ (get_all_stations [⟨"C1", "Alpha", 1, 2, true⟩]
        [⟨"W1", "Beta", 3, 4, true⟩]).map entry_id := by
  have h := C9_get_all_stations_amended [⟨"C1", "Alpha", 1, 2, true⟩]
    [⟨"W1", "Beta", 3, 4, true⟩]
  exact ⟨h.1, (h.2.1 "C1").mpr (Or.inl (by decide))⟩

end CloudLightning
